import Mathlib

/-!
Verification of the crypto-ingestion backend (normalization, checkpointing,
schema-drift detection, raw persistence, entity resolution wiring, and the
ETL orchestrator) against its natural-language specification.

The Python source is shallowly embedded: records are association lists of
Python-like values, Python `datetime.utcnow()` readings are abstract tick
counters threaded as explicit parameters, database tables are in-memory
lists, and every fallible operation returns `Except String α` (the string
is a stand-in for the Python exception's message).
-/

namespace Kasparro

/-- Python runtime values as they appear in the records this pipeline
handles: `None`, booleans, ints, floats (modelled exactly as rationals),
strings, lists and string-keyed dicts. -/
inductive PyVal where
  | none
  | bool (b : Bool)
  | int (n : Int)
  | float (q : Rat)
  | str (s : String)
  | list (xs : List PyVal)
  | dict (fs : List (String × PyVal))

/-- A Python dict with string keys, e.g. one raw record. -/
abbrev RawRecord := List (String × PyVal)

/-- First value bound to `key`, if any (dict keys are unique in CPython,
so first-match lookup is exact). -/
def dictLookup : List (String × PyVal) → String → Option PyVal
  | [], _ => Option.none
  | (k, v) :: rest, key => if k = key then some v else dictLookup rest key

/-- `d.get(key, default)`. -/
def pyGet (r : List (String × PyVal)) (key : String) (default : PyVal) : PyVal :=
  (dictLookup r key).getD default

/-- `key in d`. -/
def hasKey (r : List (String × PyVal)) (key : String) : Bool :=
  (dictLookup r key).isSome

/-- Python truthiness: `bool(v)`. -/
def truthy : PyVal → Bool
  | .none => false
  | .bool b => b
  | .int n => n != 0
  | .float q => q != 0
  | .str s => !(s == "")
  | .list xs => !xs.isEmpty
  | .dict fs => !fs.isEmpty

/-- Python `a or b`. -/
def pyOr (a b : PyVal) : PyVal := if truthy a then a else b

/-- `v.get(key, default)` on an arbitrary value: only dicts have `.get`,
anything else raises `AttributeError`. -/
def pyGetAttr (v : PyVal) (key : String) (default : PyVal) : Except String PyVal :=
  match v with
  | .dict fs => .ok (pyGet fs key default)
  | _ => .error "AttributeError: get"

/-- `v.upper()`: only strings have `.upper`. -/
def pyUpper : PyVal → Except String String
  | .str s => .ok ((s.toList.map Char.toUpper).asString)
  | _ => .error "AttributeError: upper"

/-- One digit of a decimal literal. -/
def digitVal (c : Char) : Option Nat :=
  if c.isDigit then some (c.toNat - 48) else Option.none

/-- Value of a digit run; `Option.none` if any character is not a digit. -/
def digitsVal (cs : List Char) : Option Nat :=
  cs.foldl
    (fun acc c =>
      match acc, digitVal c with
      | some n, some d => some (n * 10 + d)
      | _, _ => Option.none)
    (some 0)

/-- Parse a plain decimal literal (optional sign, integer part, optional
fractional part, at least one digit in total) the way
`decimal.Decimal(str)` accepts it; exponent forms are out of scope for
the records this pipeline sees. -/
def parseDecimalStr (s : String) : Option Rat :=
  let cs := s.toList
  let (sign, body) :=
    match cs with
    | '-' :: rest => ((-1 : Int), rest)
    | '+' :: rest => ((1 : Int), rest)
    | _ => ((1 : Int), cs)
  let (intPart, fracPart) :=
    match body.span (· ≠ '.') with
    | (ip, '.' :: fp) => (ip, fp)
    | (ip, _) => (ip, [])
  if intPart.isEmpty ∧ fracPart.isEmpty then Option.none
  else
    match digitsVal intPart, digitsVal fracPart with
    | some ip, some fp =>
        some (sign * ((ip : Rat) + (fp : Rat) / ((10 : Rat) ^ fracPart.length)))
    | _, _ => Option.none

/-- `Decimal(str(v))`: exact for ints and (rational-modelled) floats;
parses plain numeric strings; anything else (`Decimal("True")`,
`Decimal("None")`, …) raises `InvalidOperation`. -/
def pyDecimal : PyVal → Except String Rat
  | .int n => .ok (n : Rat)
  | .float q => .ok q
  | .str s =>
      match parseDecimalStr s with
      | some q => .ok q
      | Option.none => .error "InvalidOperation: Decimal"
  | _ => .error "InvalidOperation: Decimal"

/-- The normalizers' numeric idiom `Decimal(str(v)) if v else None`:
the guard tests truthiness, so `0` (and `""`, `None`) all map to `None`. -/
def decOptIfTruthy (v : PyVal) : Except String (Option Rat) :=
  if truthy v then (pyDecimal v).map some else .ok Option.none

/-- Pydantic `str` field check (v2 does not coerce non-strings). -/
def asStr : PyVal → Except String String
  | .str s => .ok s
  | _ => .error "ValidationError: str"

/-- Pydantic `Optional[str]` field check. -/
def asOptStr : PyVal → Except String (Option String)
  | .none => .ok Option.none
  | .str s => .ok (some s)
  | _ => .error "ValidationError: str"

/-- Pydantic `Optional[int]` field check (lax mode: integral floats and
integer strings coerce, bools and everything else are rejected). -/
def asOptInt : PyVal → Except String (Option Int)
  | .none => .ok Option.none
  | .int n => .ok (some n)
  | .float q => if q.den = 1 then .ok (some q.num) else .error "ValidationError: int"
  | .str s =>
      match s.toInt? with
      | some n => .ok (some n)
      | Option.none => .error "ValidationError: int"
  | _ => .error "ValidationError: int"

/-- Pydantic `Optional[Decimal]` field check (lax mode: ints, floats and
numeric strings coerce; bools are rejected). -/
def asOptDecimal : PyVal → Except String (Option Rat)
  | .none => .ok Option.none
  | .int n => .ok (some (n : Rat))
  | .float q => .ok (some q)
  | .str s =>
      match parseDecimalStr s with
      | some q => .ok (some q)
      | Option.none => .error "ValidationError: Decimal"
  | _ => .error "ValidationError: Decimal"

/-- `schemas/normalized.py`: the unified record produced by the
normalizers. Note there is no `master_coin_id` field. Timestamps are
abstract ticks. -/
structure NormalizedCryptoData where
  source : String
  source_id : String
  symbol : String
  name : String
  price_usd : Option Rat
  market_cap_usd : Option Rat
  volume_24h_usd : Option Rat
  rank : Option Int
  circulating_supply : Option Rat
  total_supply : Option Rat
  max_supply : Option Rat
  percent_change_24h : Option Rat
  additional_data : List (String × PyVal)
  data_timestamp : Nat

/-- The price descent of `normalize_coinpaprika`: top-level `price_usd`
preferred; only when it is `None` and `quotes` is present is
`quotes.USD.price` consulted. -/
def coinpaprika_price_source (raw : RawRecord) : Except String PyVal :=
  match pyGet raw "price_usd" .none with
  | .none =>
      if hasKey raw "quotes" then do
        let usd ← pyGetAttr (pyGet raw "quotes" (.dict [])) "USD" (.dict [])
        pyGetAttr usd "price" .none
      else pure PyVal.none
  | v => pure v

/-- The `volume_24h`/`market_cap` descent of `normalize_coinpaprika`:
when the *volume* is `None` and `quotes` is present, **both** values are
re-read from `quotes.USD`. -/
def coinpaprika_vol_mcap_source (raw : RawRecord) :
    Except String (PyVal × PyVal) :=
  match pyGet raw "volume_24h_usd" .none with
  | .none =>
      if hasKey raw "quotes" then do
        let usd ← pyGetAttr (pyGet raw "quotes" (.dict [])) "USD" (.dict [])
        let v ← pyGetAttr usd "volume_24h" .none
        let m ← pyGetAttr usd "market_cap" .none
        pure (v, m)
      else pure (PyVal.none, pyGet raw "market_cap_usd" .none)
  | v => pure (v, pyGet raw "market_cap_usd" .none)

/-- `NormalizationService.normalize_coinpaprika`: top-level
`price_usd`/`volume_24h_usd`/`market_cap_usd` preferred, else the
`quotes.USD` sub-dict; symbol uppercased; absent symbol/name default to
`""`; numeric guard is truthiness. -/
def normalize_coinpaprika (raw : RawRecord) (ts : Nat) :
    Except String NormalizedCryptoData := do
  let price1 ← coinpaprika_price_source raw
  let vm ← coinpaprika_vol_mcap_source raw
  let symbol ← pyUpper (pyGet raw "symbol" (.str ""))
  let price_usd ← decOptIfTruthy price1
  let market_cap_usd ← decOptIfTruthy vm.2
  let volume_24h_usd ← decOptIfTruthy vm.1
  let circulating_supply ← decOptIfTruthy (pyGet raw "circulating_supply" .none)
  let total_supply ← decOptIfTruthy (pyGet raw "total_supply" .none)
  let max_supply ← decOptIfTruthy (pyGet raw "max_supply" .none)
  let percent_change_24h ← decOptIfTruthy (pyGet raw "percent_change_24h" .none)
  let source_id ← asStr (pyOr (pyGet raw "coin_id" .none) (pyGet raw "id" (.str "")))
  let name ← asStr (pyGet raw "name" (.str ""))
  let rank ← asOptInt (pyGet raw "rank" .none)
  pure {
    source := "coinpaprika"
    source_id := source_id
    symbol := symbol
    name := name
    price_usd := price_usd
    market_cap_usd := market_cap_usd
    volume_24h_usd := volume_24h_usd
    rank := rank
    circulating_supply := circulating_supply
    total_supply := total_supply
    max_supply := max_supply
    percent_change_24h := percent_change_24h
    additional_data :=
      [("percent_change_1h", pyGet raw "percent_change_1h" .none),
       ("percent_change_7d", pyGet raw "percent_change_7d" .none)]
    data_timestamp := ts
  }

/-- `NormalizationService.normalize_coingecko`: `current_price →
price_usd`, `market_cap → market_cap_usd`, `total_volume →
volume_24h_usd`, `market_cap_rank → rank`; absent symbol/name default to
`""`. -/
def normalize_coingecko (raw : RawRecord) (ts : Nat) :
    Except String NormalizedCryptoData := do
  let symbol ← pyUpper (pyGet raw "symbol" (.str ""))
  let price_usd ← decOptIfTruthy (pyGet raw "current_price" .none)
  let market_cap_usd ← decOptIfTruthy (pyGet raw "market_cap" .none)
  let volume_24h_usd ← decOptIfTruthy (pyGet raw "total_volume" .none)
  let circulating_supply ← decOptIfTruthy (pyGet raw "circulating_supply" .none)
  let total_supply ← decOptIfTruthy (pyGet raw "total_supply" .none)
  let max_supply ← decOptIfTruthy (pyGet raw "max_supply" .none)
  let percent_change_24h ← decOptIfTruthy (pyGet raw "price_change_percentage_24h" .none)
  let source_id ← asStr (pyOr (pyGet raw "coin_id" .none) (pyGet raw "id" (.str "")))
  let name ← asStr (pyGet raw "name" (.str ""))
  let rank ← asOptInt (pyGet raw "market_cap_rank" .none)
  pure {
    source := "coingecko"
    source_id := source_id
    symbol := symbol
    name := name
    price_usd := price_usd
    market_cap_usd := market_cap_usd
    volume_24h_usd := volume_24h_usd
    rank := rank
    circulating_supply := circulating_supply
    total_supply := total_supply
    max_supply := max_supply
    percent_change_24h := percent_change_24h
    additional_data :=
      [("high_24h", pyGet raw "high_24h" .none),
       ("low_24h", pyGet raw "low_24h" .none),
       ("price_change_24h", pyGet raw "price_change_24h" .none),
       ("ath", pyGet raw "ath" .none),
       ("atl", pyGet raw "atl" .none)]
    data_timestamp := ts
  }

/-- `NormalizationService.normalize_csv`: `source_id = "csv_" +
symbol.upper()`; no rank or supplies; absent symbol/name default to
`""`. -/
def normalize_csv (raw : RawRecord) (ts : Nat) :
    Except String NormalizedCryptoData := do
  let symbol ← pyUpper (pyGet raw "symbol" (.str ""))
  let source_id := "csv_" ++ symbol
  let price_usd ← decOptIfTruthy (pyGet raw "price_usd" .none)
  let market_cap_usd ← decOptIfTruthy (pyGet raw "market_cap_usd" .none)
  let volume_24h_usd ← decOptIfTruthy (pyGet raw "volume_24h_usd" .none)
  let percent_change_24h ← decOptIfTruthy (pyGet raw "percent_change_24h" .none)
  let name ← asStr (pyGet raw "name" (.str ""))
  pure {
    source := "csv"
    source_id := source_id
    symbol := symbol
    name := name
    price_usd := price_usd
    market_cap_usd := market_cap_usd
    volume_24h_usd := volume_24h_usd
    rank := Option.none
    circulating_supply := Option.none
    total_supply := Option.none
    max_supply := Option.none
    percent_change_24h := percent_change_24h
    additional_data := []
    data_timestamp := ts
  }

example :
    (normalize_csv [("symbol", .str "btc"), ("name", .str "Bitcoin"),
      ("price_usd", .float (43251 : Rat))] 7).map
      (fun n => (n.symbol, n.source_id, n.price_usd)) =
    .ok ("BTC", "csv_BTC", some (43251 : Rat)) := by rfl

example :
    (normalize_csv [] 0).map (fun n => (n.symbol, n.name)) = .ok ("", "") := by rfl

example :
    (normalize_coinpaprika [("coin_id", .str "btc-bitcoin"), ("symbol", .str "BTC"),
      ("name", .str "Bitcoin"), ("rank", .int 1), ("price_usd", .float (86525 : Rat) ),
      ("percent_change_24h", .int 0)] 3).map
      (fun n => (n.source_id, n.rank, n.percent_change_24h)) =
    .ok ("btc-bitcoin", some 1, Option.none) := by rfl

/-! ### Checkpoint store (`ingestion/checkpoint.py`) -/

/-- One `etl_checkpoints` row. All columns are nullable; timestamps are
abstract ticks. -/
structure CheckpointRow where
  checkpoint_value : Option String
  last_success_at : Option Nat
  last_failure_at : Option Nat
  failure_reason : Option String
  metadata : Option (List (String × PyVal))
  updated_at : Option Nat

/-- The `etl_checkpoints` table: at most one row per `source_name`. -/
abbrev CheckpointStore := List (String × CheckpointRow)

/-- Row for a given source, if present. -/
def storeLookup : CheckpointStore → String → Option CheckpointRow
  | [], _ => Option.none
  | (n, r) :: rest, src => if n = src then some r else storeLookup rest src

def optNatVal : Option Nat → PyVal
  | Option.none => .none
  | some t => .int t

def optStrVal : Option String → PyVal
  | Option.none => .none
  | some s => .str s

/-- The dict `CheckpointManager.get_checkpoint` builds from a fetched row:
exactly the five keys below (`metadata` defaulted to `{}` when null). -/
def checkpoint_dict (r : CheckpointRow) : List (String × PyVal) :=
  [("checkpoint_value", optStrVal r.checkpoint_value),
   ("last_success_at", optNatVal r.last_success_at),
   ("last_failure_at", optNatVal r.last_failure_at),
   ("failure_reason", optStrVal r.failure_reason),
   ("metadata", .dict (r.metadata.getD []))]

/-- `CheckpointManager.get_checkpoint`: `None` when no row exists. -/
def get_checkpoint (store : CheckpointStore) (src : String) :
    Option (List (String × PyVal)) :=
  (storeLookup store src).map checkpoint_dict

/-- `CheckpointManager.get_last_row_number`. The guard reads
`checkpoint["type"]` outside any `try`, and `get_checkpoint` never returns
a `"type"` key, so an existing row raises `KeyError`; only the inner
`int(checkpoint["value"])` is protected (falling back to 0). -/
def get_last_row_number (store : CheckpointStore) (src : String) :
    Except String Nat :=
  match get_checkpoint store src with
  | Option.none => .ok 0
  | some cp =>
      match dictLookup cp "type" with
      | Option.none => .error "KeyError: type"
      | some t =>
          if (match t with | .str s => s == "row_number" | _ => false) then
            match dictLookup cp "value" with
            | some (.str s) => .ok (((s.toInt?).map Int.toNat).getD 0)
            | some (.int n) => .ok n.toNat
            | _ => .ok 0
          else .ok 0

/-- `CheckpointManager.update_checkpoint`. `dbOk` is whether the
connection/commit succeeds; on failure the method logs and then
**re-raises**. The success branch sets `checkpoint_value`,
`last_success_at` and `metadata`; the failure branch sets only
`last_failure_at` and `failure_reason` (plus `updated_at`). A SQL
`UPDATE` touches nothing when no row matches `source_name`. -/
def update_checkpoint (dbOk : Bool) (now : Nat) (store : CheckpointStore)
    (src : String) (checkpoint_value : String) (success : Bool)
    (error_message : Option String) (metadata : Option (List (String × PyVal))) :
    Except String CheckpointStore :=
  if dbOk then
    .ok (store.map fun p =>
      if p.1 = src then
        if success then
          (p.1, { p.2 with
                    checkpoint_value := some checkpoint_value,
                    last_success_at := some now,
                    metadata := metadata,
                    updated_at := some now })
        else
          (p.1, { p.2 with
                    last_failure_at := some now,
                    failure_reason := error_message,
                    updated_at := some now })
      else p)
  else .error "Failed to update checkpoint"

/-! ### Schema drift detection (`ingestion/schema_drift.py`) -/

/-- Python runtime type tags. -/
inductive PyType where
  | tNone | tBool | tInt | tFloat | tStr | tList | tDict
deriving DecidableEq, Repr

def typeOf : PyVal → PyType
  | .none => .tNone
  | .bool _ => .tBool
  | .int _ => .tInt
  | .float _ => .tFloat
  | .str _ => .tStr
  | .list _ => .tList
  | .dict _ => .tDict

/-- `t.__name__` for a single type object. -/
def typeName : PyType → String
  | .tNone => "NoneType"
  | .tBool => "bool"
  | .tInt => "int"
  | .tFloat => "float"
  | .tStr => "str"
  | .tList => "list"
  | .tDict => "dict"

/-- An expected-schema entry: a single type object or a tuple of type
objects (as in `(float, type(None))`). -/
inductive ExpectedType where
  | single (t : PyType)
  | tuple (ts : List PyType)

/-- Python `type(v) == expected_type`: a type object is never equal to a
tuple, so tuple-typed entries never compare equal. -/
def typeEqExpected (v : PyVal) : ExpectedType → Bool
  | .single t => typeOf v == t
  | .tuple _ => false

/-- `expected_type.__name__`: tuples have no `__name__`, so formatting a
mismatch against a tuple-typed entry raises `AttributeError`. -/
def expectedTypeName : ExpectedType → Except String String
  | .single t => .ok (typeName t)
  | .tuple _ => .error "AttributeError: __name__"

/-- `SchemaDriftDetector._calculate_confidence`:
`max(0, |expected ∩ actual| / |expected| - 0.1 * |mismatches|)`. -/
def calculate_confidence (expected_fields actual_fields : List String)
    (type_mismatches : List String) : Rat :=
  if expected_fields.isEmpty then 1
  else
    let matching := expected_fields.filter (fun f => actual_fields.contains f)
    max 0 ((matching.length : Rat) / (expected_fields.length : Rat)
      - (type_mismatches.length : Rat) * ((1 : Rat) / 10))

/-- `SchemaDriftDetector.detect_drift`. The detector's `expected_schema`
is `None` until `set_expected_schema` is called (the pipeline never calls
it), in which case the method returns `(False, 1.0, [])`. With a schema,
each expected field present with a non-`None` value is compared by
`type(value) != expected_type`, and a mismatch message interpolates
`expected_type.__name__`. -/
def detect_drift (expected_schema : Option (List (String × ExpectedType)))
    (data : RawRecord) : Except String (Bool × Rat × List String) :=
  match expected_schema with
  | Option.none => .ok (false, 1, [])
  | some schema =>
      let expected_fields := schema.map (·.1)
      let actual_fields := data.map (·.1)
      let missing_fields := expected_fields.filter (fun f => !actual_fields.contains f)
      let extra_fields := actual_fields.filter (fun f => !expected_fields.contains f)
      let missing_warnings :=
        if !missing_fields.isEmpty then
          ["Missing fields: " ++ String.intercalate ", " missing_fields]
        else []
      let extra_warnings :=
        if !extra_fields.isEmpty then
          ["Unexpected fields: " ++ String.intercalate ", " extra_fields]
        else []
      match schema.foldlM (fun (acc : List String) fe =>
          match dictLookup data fe.1 with
          | some v =>
              (match v with
               | .none => pure acc
               | _ =>
                  if !typeEqExpected v fe.2 then do
                    let en ← expectedTypeName fe.2
                    pure (acc ++ [fe.1 ++ ": expected " ++ en ++ ", got "
                      ++ typeName (typeOf v)])
                  else pure acc)
          | Option.none => pure acc) ([] : List String) with
      | .error e => .error e
      | .ok type_mismatches =>
          let has_drift := !missing_fields.isEmpty || !extra_fields.isEmpty
            || !type_mismatches.isEmpty
          let confidence := calculate_confidence expected_fields actual_fields
            type_mismatches
          .ok (has_drift, confidence,
            missing_warnings ++ extra_warnings ++ type_mismatches)

/-- `COINPAPRIKA_SCHEMA` from `schema_drift.py`. -/
def COINPAPRIKA_SCHEMA : List (String × ExpectedType) :=
  [("coin_id", .single .tStr),
   ("symbol", .single .tStr),
   ("name", .single .tStr),
   ("rank", .single .tInt),
   ("price_usd", .tuple [.tFloat, .tNone]),
   ("volume_24h_usd", .tuple [.tFloat, .tNone]),
   ("market_cap_usd", .tuple [.tFloat, .tNone])]

/-- `COINGECKO_SCHEMA` from `schema_drift.py`. -/
def COINGECKO_SCHEMA : List (String × ExpectedType) :=
  [("coin_id", .single .tStr),
   ("symbol", .single .tStr),
   ("name", .single .tStr),
   ("current_price", .tuple [.tFloat, .tNone]),
   ("market_cap", .tuple [.tFloat, .tNone]),
   ("total_volume", .tuple [.tFloat, .tNone])]

/-- `CSV_SCHEMA` from `schema_drift.py`. -/
def CSV_SCHEMA : List (String × ExpectedType) :=
  [("symbol", .single .tStr),
   ("name", .single .tStr),
   ("price_usd", .tuple [.tFloat, .tNone]),
   ("market_cap_usd", .tuple [.tFloat, .tNone]),
   ("volume_24h_usd", .tuple [.tFloat, .tNone])]

/-! ### Pydantic raw-schema validation (`schemas/raw.py`) and per-source
`validate` -/

/-- `RawCoinPaprikaData(**data)` succeeds: `coin_id` is a required `str`
(alias `id`, `populate_by_name`); the rest are optional typed fields.
Extra keys are ignored (pydantic default). -/
def rawCoinPaprikaOk (data : RawRecord) : Bool :=
  (do
    let _ ← asStr (((dictLookup data "coin_id").orElse
      (fun _ => dictLookup data "id")).getD PyVal.none)
    let _ ← asOptStr (pyGet data "symbol" .none)
    let _ ← asOptStr (pyGet data "name" .none)
    let _ ← asOptInt (pyGet data "rank" .none)
    let _ ← asOptDecimal (((dictLookup data "price_usd").orElse
      (fun _ => dictLookup data "price")).getD PyVal.none)
    let _ ← asOptDecimal (((dictLookup data "volume_24h_usd").orElse
      (fun _ => dictLookup data "volume_24h")).getD PyVal.none)
    let _ ← asOptDecimal (((dictLookup data "market_cap_usd").orElse
      (fun _ => dictLookup data "market_cap")).getD PyVal.none)
    let _ ← asOptDecimal (pyGet data "circulating_supply" .none)
    let _ ← asOptDecimal (pyGet data "total_supply" .none)
    let _ ← asOptDecimal (pyGet data "max_supply" .none)
    let _ ← asOptDecimal (pyGet data "percent_change_1h" .none)
    let _ ← asOptDecimal (pyGet data "percent_change_24h" .none)
    let _ ← asOptDecimal (pyGet data "percent_change_7d" .none)
    pure () : Except String Unit).isOk

/-- `RawCoinGeckoData(**data)` succeeds. -/
def rawCoinGeckoOk (data : RawRecord) : Bool :=
  (do
    let _ ← asStr (((dictLookup data "coin_id").orElse
      (fun _ => dictLookup data "id")).getD PyVal.none)
    let _ ← asOptStr (pyGet data "symbol" .none)
    let _ ← asOptStr (pyGet data "name" .none)
    let _ ← asOptDecimal (pyGet data "current_price" .none)
    let _ ← asOptDecimal (pyGet data "market_cap" .none)
    let _ ← asOptInt (pyGet data "market_cap_rank" .none)
    let _ ← asOptDecimal (pyGet data "total_volume" .none)
    let _ ← asOptDecimal (pyGet data "high_24h" .none)
    let _ ← asOptDecimal (pyGet data "low_24h" .none)
    let _ ← asOptDecimal (pyGet data "price_change_24h" .none)
    let _ ← asOptDecimal (pyGet data "price_change_percentage_24h" .none)
    let _ ← asOptDecimal (pyGet data "circulating_supply" .none)
    let _ ← asOptDecimal (pyGet data "total_supply" .none)
    let _ ← asOptDecimal (pyGet data "max_supply" .none)
    let _ ← asOptDecimal (pyGet data "ath" .none)
    let _ ← asOptDecimal (pyGet data "atl" .none)
    pure () : Except String Unit).isOk

/-- `RawCSVData(**data)` succeeds: `symbol` and `name` are required
`str` fields. -/
def rawCSVOk (data : RawRecord) : Bool :=
  (do
    let _ ← asStr (pyGet data "symbol" .none)
    let _ ← asStr (pyGet data "name" .none)
    let _ ← asOptDecimal (pyGet data "price_usd" .none)
    let _ ← asOptDecimal (pyGet data "market_cap_usd" .none)
    let _ ← asOptDecimal (pyGet data "volume_24h_usd" .none)
    let _ ← asOptDecimal (pyGet data "percent_change_24h" .none)
    pure () : Except String Unit).isOk

/-- `CoinPaprikaSource.validate`: drift detection first (the instance's
schema was never set, so it is advisory and cannot fail here), then the
pydantic check; any exception yields `False`. -/
def coinpaprika_validate (data : RawRecord) : Bool :=
  match detect_drift Option.none data with
  | .error _ => false
  | .ok _ => rawCoinPaprikaOk data

/-- `CoinGeckoSource.validate`: pydantic check only. -/
def coingecko_validate (data : RawRecord) : Bool := rawCoinGeckoOk data

/-- `CSVSource.validate`: pydantic check only. -/
def csv_validate (data : RawRecord) : Bool := rawCSVOk data

/-! ### Raw persistence (`save_raw`) -/

/-- `coin_id` column value of a record (`item.get("coin_id")`): a string
or SQL NULL. -/
def pyColStr (v : PyVal) : Option String :=
  match v with
  | .str s => some s
  | _ => Option.none

/-- `CoinPaprikaSource.save_raw` over the key projection of
`raw_coinpaprika` (unique on `(coin_id, data_timestamp)`; NULL keys never
conflict). `ON CONFLICT DO NOTHING` silently skips duplicates, but
`saved_count` is incremented for every record that passed validation,
conflict or not. `connOk` is whether the connection/commit succeeds; on
failure the method logs and re-raises. -/
def coinpaprika_save_raw (connOk : Bool) (tbl : List (Option String × Nat))
    (data : List RawRecord) (now : Nat) :
    Except String (Nat × List (Option String × Nat)) :=
  if data.isEmpty then .ok (0, tbl)
  else if !connOk then .error "Failed to save raw CoinPaprika data"
  else
    .ok (data.foldl (fun acc item =>
      if coinpaprika_validate item then
        let key : Option String × Nat := (pyColStr (pyGet item "coin_id" .none), now)
        let tbl' := if key.1.isSome ∧ acc.2.contains key then acc.2 else acc.2 ++ [key]
        (acc.1 + 1, tbl')
      else acc) ((0 : Nat), tbl))

/-- `CoinGeckoSource.save_raw`, same shape as CoinPaprika's. -/
def coingecko_save_raw (connOk : Bool) (tbl : List (Option String × Nat))
    (data : List RawRecord) (now : Nat) :
    Except String (Nat × List (Option String × Nat)) :=
  if data.isEmpty then .ok (0, tbl)
  else if !connOk then .error "Failed to save raw CoinGecko data"
  else
    .ok (data.foldl (fun acc item =>
      if coingecko_validate item then
        let key : Option String × Nat := (pyColStr (pyGet item "coin_id" .none), now)
        let tbl' := if key.1.isSome ∧ acc.2.contains key then acc.2 else acc.2 ++ [key]
        (acc.1 + 1, tbl')
      else acc) ((0 : Nat), tbl))

/-- `CSVSource.save_raw` over the key projection of `raw_csv` (unique on
`(source_file, row_number)`). `get_last_row_number` is called before the
connection is opened, so its `KeyError` propagates. `row_number` is
`last_row_number + idx + 1` with `idx` the enumeration index over *all*
records, validated or not. -/
def csv_save_raw (connOk : Bool) (store : CheckpointStore)
    (tbl : List (String × Nat)) (data : List RawRecord) (path : String) :
    Except String (Nat × List (String × Nat)) :=
  if data.isEmpty then .ok (0, tbl)
  else do
    let last ← get_last_row_number store "csv"
    if !connOk then .error "Failed to save raw CSV data"
    else
      .ok (data.enum.foldl (fun acc it =>
        if csv_validate it.2 then
          let key : String × Nat := (path, last + it.1 + 1)
          let tbl' := if acc.2.contains key then acc.2 else acc.2 ++ [key]
          (acc.1 + 1, tbl')
        else acc) ((0 : Nat), tbl))

/-! ### Source adapters: fetch (`ingestion/sources/*.py`) -/

/-- The three registered sources. -/
inductive SourceKind where
  | coinpaprika | coingecko | csv
deriving DecidableEq, Repr

/-- `source.source_name`. -/
def source_name : SourceKind → String
  | .coinpaprika => "coinpaprika"
  | .coingecko => "coingecko"
  | .csv => "csv"

/-- `settings.csv_data_path` (opaque config value). -/
def csv_data_path : String := "data/crypto_data.csv"

/-- `datetime.isoformat()` on an abstract tick; injective on ticks. -/
def isoformat (t : Nat) : String := "1970-01-01T00:00:00+" ++ toString t

/-- The per-item transform in `CoinPaprikaSource.fetch`: base fields by
`.get`, then the USD sub-quote fields when `item.get("quotes", {})
.get("USD", {})` is truthy. -/
def coinpaprika_transform_item (item : PyVal) : Except String RawRecord := do
  match item with
  | .dict fs =>
      let base : RawRecord :=
        [("coin_id", pyGet fs "id" .none),
         ("symbol", pyGet fs "symbol" .none),
         ("name", pyGet fs "name" .none),
         ("rank", pyGet fs "rank" .none),
         ("circulating_supply", pyGet fs "circulating_supply" .none),
         ("total_supply", pyGet fs "total_supply" .none),
         ("max_supply", pyGet fs "max_supply" .none)]
      let quotes := pyGet fs "quotes" (.dict [])
      let usd ← pyGetAttr quotes "USD" (.dict [])
      if truthy usd then do
        let price ← pyGetAttr usd "price" .none
        let vol ← pyGetAttr usd "volume_24h" .none
        let mcap ← pyGetAttr usd "market_cap" .none
        let p1h ← pyGetAttr usd "percent_change_1h" .none
        let p24h ← pyGetAttr usd "percent_change_24h" .none
        let p7d ← pyGetAttr usd "percent_change_7d" .none
        pure (base ++
          [("price_usd", price), ("volume_24h_usd", vol),
           ("market_cap_usd", mcap), ("percent_change_1h", p1h),
           ("percent_change_24h", p24h), ("percent_change_7d", p7d)])
      else pure base
  | _ => .error "AttributeError: get"

/-- The per-item transform in `CoinGeckoSource.fetch`: a flat re-keying
by `.get`. -/
def coingecko_transform_item (item : PyVal) : Except String RawRecord :=
  match item with
  | .dict fs =>
      .ok [("coin_id", pyGet fs "id" .none),
           ("symbol", pyGet fs "symbol" .none),
           ("name", pyGet fs "name" .none),
           ("current_price", pyGet fs "current_price" .none),
           ("market_cap", pyGet fs "market_cap" .none),
           ("market_cap_rank", pyGet fs "market_cap_rank" .none),
           ("total_volume", pyGet fs "total_volume" .none),
           ("high_24h", pyGet fs "high_24h" .none),
           ("low_24h", pyGet fs "low_24h" .none),
           ("price_change_24h", pyGet fs "price_change_24h" .none),
           ("price_change_percentage_24h", pyGet fs "price_change_percentage_24h" .none),
           ("circulating_supply", pyGet fs "circulating_supply" .none),
           ("total_supply", pyGet fs "total_supply" .none),
           ("max_supply", pyGet fs "max_supply" .none),
           ("ath", pyGet fs "ath" .none),
           ("atl", pyGet fs "atl" .none)]
  | _ => .error "AttributeError: get"

/-- `CSVSource.fetch`: empty list when the file is absent; otherwise read
all rows, ask the checkpoint for the last consumed row number (whose
`KeyError` the surrounding `except` re-raises), and slice it off the
front. -/
def csv_fetch (fileExists : Bool) (fileRows : List RawRecord)
    (store : CheckpointStore) : Except String (List RawRecord) :=
  if !fileExists then .ok []
  else do
    let last ← get_last_row_number store "csv"
    let rows := if last > 0 then fileRows.drop last else fileRows
    .ok rows

/-! ### Database state and the orchestrator (`ingestion/etl.py`) -/

/-- One `etl_runs` row. -/
structure RunRow where
  run_id : Nat
  source_name : String
  status : String
  started_at : Nat
  completed_at : Option Nat
  duration_seconds : Option Int
  records_fetched : Nat
  records_processed : Nat
  records_failed : Nat
  error_message : Option String

/-- One `normalized_crypto_data` row (natural key
`(source, source_id, data_timestamp)`). -/
structure NormRow where
  source : String
  source_id : String
  master_coin_id : Option Nat
  symbol : String
  name : String
  price_usd : Option Rat
  market_cap_usd : Option Rat
  volume_24h_usd : Option Rat
  rank : Option Int
  circulating_supply : Option Rat
  total_supply : Option Rat
  max_supply : Option Rat
  percent_change_24h : Option Rat
  additional_data : List (String × PyVal)
  data_timestamp : Nat

/-- The relational store as the pipeline sees it (raw archives reduced to
their unique-key projections). -/
structure DBState where
  etl_runs : List RunRow
  etl_checkpoints : CheckpointStore
  normalized_crypto_data : List NormRow
  raw_coinpaprika : List (Option String × Nat)
  raw_coingecko : List (Option String × Nat)
  raw_csv : List (String × Nat)

/-- External effects and clock readings of one `run_etl_for_source`
call, made explicit: each `datetime.utcnow()` is a named tick, each
fallible database interaction a Boolean, the provider HTTP response a
given `Except`. -/
structure EtlEnv where
  runId : Nat
  startedAt : Nat
  insertRunOk : Bool
  providerData : Except String (List PyVal)
  csvFileExists : Bool
  csvFileRows : List RawRecord
  saveRawTime : Nat
  saveRawOk : Bool
  loopConnOk : Bool
  normTime : Nat → Nat
  upsertFails : Nat → Bool
  commitOk : Bool
  checkpointNow : Nat
  ckNow : Nat
  ckWriteOk : Bool
  ckFailNow : Nat
  ckFailWriteOk : Bool
  completedAt : Nat
  updateRunOk : Bool

/-- `source.fetch()` per adapter (HTTP transforms applied to the provider
payload; the rate-limit sleep has no observable effect here). -/
def adapter_fetch (src : SourceKind) (env : EtlEnv) (store : CheckpointStore) :
    Except String (List RawRecord) :=
  match src with
  | .coinpaprika => do
      let items ← env.providerData
      items.mapM coinpaprika_transform_item
  | .coingecko => do
      let items ← env.providerData
      items.mapM coingecko_transform_item
  | .csv => csv_fetch env.csvFileExists env.csvFileRows store

/-- `source.save_raw(records)` per adapter, acting on the matching raw
archive. -/
def adapter_save_raw (src : SourceKind) (env : EtlEnv) (db : DBState)
    (data : List RawRecord) : Except String (Nat × DBState) :=
  match src with
  | .coinpaprika =>
      (coinpaprika_save_raw env.saveRawOk db.raw_coinpaprika data env.saveRawTime).map
        (fun r => (r.1, { db with raw_coinpaprika := r.2 }))
  | .coingecko =>
      (coingecko_save_raw env.saveRawOk db.raw_coingecko data env.saveRawTime).map
        (fun r => (r.1, { db with raw_coingecko := r.2 }))
  | .csv =>
      (csv_save_raw env.saveRawOk db.etl_checkpoints db.raw_csv data csv_data_path).map
        (fun r => (r.1, { db with raw_csv := r.2 }))

/-- `source.normalize(record)` per adapter (each one stamps its own
`datetime.utcnow()`). -/
def adapter_normalize (src : SourceKind) (raw : RawRecord) (ts : Nat) :
    Except String NormalizedCryptoData :=
  match src with
  | .coinpaprika => normalize_coinpaprika raw ts
  | .coingecko => normalize_coingecko raw ts
  | .csv => normalize_csv raw ts

/-- The row the orchestrator's upsert builds from
`source.normalize(item)`: `normalized.get("master_coin_id")` is `None`
because `model_dump()` of `NormalizedCryptoData` has no such key. -/
def normRowOfDump (nd : NormalizedCryptoData) : NormRow :=
  { source := nd.source
    source_id := nd.source_id
    master_coin_id := Option.none
    symbol := nd.symbol
    name := nd.name
    price_usd := nd.price_usd
    market_cap_usd := nd.market_cap_usd
    volume_24h_usd := nd.volume_24h_usd
    rank := nd.rank
    circulating_supply := nd.circulating_supply
    total_supply := nd.total_supply
    max_supply := nd.max_supply
    percent_change_24h := nd.percent_change_24h
    additional_data := nd.additional_data
    data_timestamp := nd.data_timestamp }

/-- Natural-key match for the normalized upsert. -/
def normKeyMatches (r n : NormRow) : Bool :=
  r.source == n.source && r.source_id == n.source_id
    && r.data_timestamp == n.data_timestamp

/-- `INSERT ... ON CONFLICT (source, source_id, data_timestamp) DO UPDATE
SET master_coin_id, price_usd, market_cap_usd, volume_24h_usd`. -/
def upsert_normalized (tbl : List NormRow) (n : NormRow) : List NormRow :=
  if tbl.any (fun r => normKeyMatches r n) then
    tbl.map (fun r =>
      if normKeyMatches r n then
        { r with master_coin_id := n.master_coin_id, price_usd := n.price_usd,
                 market_cap_usd := n.market_cap_usd,
                 volume_24h_usd := n.volume_24h_usd }
      else r)
  else tbl ++ [n]

/-- One iteration of the per-record loop: normalize, then execute the
upsert; a failure of either increments `records_failed` and continues. -/
def process_step (src : SourceKind) (env : EtlEnv)
    (acc : List NormRow × Nat × Nat) (it : Nat × RawRecord) :
    List NormRow × Nat × Nat :=
  match adapter_normalize src it.2 (env.normTime it.1) with
  | .error _ => (acc.1, acc.2.1, acc.2.2 + 1)
  | .ok nd =>
      if env.upsertFails it.1 then (acc.1, acc.2.1, acc.2.2 + 1)
      else (acc.1 ++ [normRowOfDump nd], acc.2.1 + 1, acc.2.2)

/-- The per-record loop of `run_etl_for_source`: each record is
normalized and its upsert executed; any per-record exception increments
`records_failed` and continues. Returns the rows pending commit and the
two counters. -/
def process_records (src : SourceKind) (env : EtlEnv)
    (raws : List RawRecord) : List NormRow × Nat × Nat :=
  raws.enum.foldl (process_step src env) ([], 0, 0)

/-- The final `UPDATE etl_runs ... WHERE run_id = :run_id`. -/
def update_run_row (runs : List RunRow) (runId : Nat) (status : String)
    (completedAt : Nat) (duration : Int) (fetched processed failed : Nat)
    (err : Option String) : List RunRow :=
  runs.map (fun r =>
    if r.run_id == runId then
      { r with status := status, completed_at := some completedAt,
               duration_seconds := some duration, records_fetched := fetched,
               records_processed := processed, records_failed := failed,
               error_message := err }
    else r)

/-- Observable outcome of one `run_etl_for_source` call. `escaped` is the
message of an exception that left the coroutine (swallowed only by
`asyncio.gather(return_exceptions=True)`); `ckValueWritten` records the
`checkpoint_value` argument passed to the success mark, if reached. -/
structure EtlOutcome where
  db : DBState
  escaped : Option String
  status : String
  records_fetched : Nat
  records_processed : Nat
  records_failed : Nat
  error_message : Option String
  ckValueWritten : Option String

/-- Completion path: compute duration and write the final run row (a
failure of that write is logged and ignored). -/
def finish_run (env : EtlEnv) (db : DBState) (status : String)
    (err : Option String) (fetched processed failed : Nat)
    (ckv : Option String) : EtlOutcome :=
  let dur : Int := (env.completedAt : Int) - (env.startedAt : Int)
  let runs :=
    if env.updateRunOk then
      update_run_row db.etl_runs env.runId status env.completedAt dur
        fetched processed failed err
    else db.etl_runs
  { db := { db with etl_runs := runs }
    escaped := Option.none
    status := status
    records_fetched := fetched
    records_processed := processed
    records_failed := failed
    error_message := err
    ckValueWritten := ckv }

/-- The `except` path of `run_etl_for_source`: mark the checkpoint
failure (passing `""` as value, which the failure branch ignores) and
fall through to completion — unless that mark itself raises, in which
case the exception escapes and the final run row is never written. -/
def fail_run (src : SourceKind) (env : EtlEnv) (db : DBState)
    (fetched processed failed : Nat) (e : String) : EtlOutcome :=
  match update_checkpoint env.ckFailWriteOk env.ckFailNow db.etl_checkpoints
      (source_name src) "" false (some e) Option.none with
  | .error e2 =>
      { db := db, escaped := some e2, status := "failed",
        records_fetched := fetched, records_processed := processed,
        records_failed := failed, error_message := some e,
        ckValueWritten := Option.none }
  | .ok cps =>
      finish_run env { db with etl_checkpoints := cps } "failed" (some e)
        fetched processed failed Option.none

/-- The success-side checkpoint advance: the value is a fresh
`datetime.utcnow().isoformat()`, replaced for `csv` by
`str(get_last_row_number() + records_fetched)`; then the success mark
(either step may raise). Returns the value passed to the mark. -/
def checkpoint_advance (src : SourceKind) (env : EtlEnv) (db : DBState)
    (fetched processed : Nat) : Except String (DBState × String) := do
  let ckv ←
    match src with
    | SourceKind.csv => do
        let last ← get_last_row_number db.etl_checkpoints "csv"
        pure (toString (last + fetched))
    | _ => pure (isoformat env.checkpointNow)
  let meta : List (String × PyVal) :=
    [("run_id", .int env.runId), ("records_processed", .int processed)]
  let cps ← update_checkpoint env.ckWriteOk env.ckNow db.etl_checkpoints
    (source_name src) ckv true Option.none (some meta)
  pure ({ db with etl_checkpoints := cps }, ckv)

/-- Step 2 of `run_etl_for_source`: insert the `running` row; a failure
here is logged and the run proceeds on the unchanged store. -/
def record_run_start (src : SourceKind) (env : EtlEnv) (db0 : DBState) :
    DBState :=
  if env.insertRunOk then
    { db0 with etl_runs := db0.etl_runs ++
        [{ run_id := env.runId, source_name := source_name src,
           status := "running", started_at := env.startedAt,
           completed_at := Option.none, duration_seconds := Option.none,
           records_fetched := 0, records_processed := 0,
           records_failed := 0, error_message := Option.none }] }
  else db0

/-- The end-of-loop commit making the pending upserts visible. -/
def apply_commit (src : SourceKind) (env : EtlEnv) (db : DBState)
    (raws : List RawRecord) : DBState :=
  { db with normalized_crypto_data := List.foldl upsert_normalized db.normalized_crypto_data (process_records src env raws).1 }

/-- `ETLOrchestrator.run_etl_for_source`: record the running row (write
failure only logged), fetch, and — when records arrived — save raw,
normalize/upsert each record with per-record failure isolation, commit,
and advance the checkpoint; any exception in that block takes the
failure path. Finally write the completion row. -/
def run_etl_for_source (src : SourceKind) (env : EtlEnv) (db0 : DBState) :
    EtlOutcome :=
  match adapter_fetch src env (record_run_start src env db0).etl_checkpoints with
  | .error e => fail_run src env (record_run_start src env db0) 0 0 0 e
  | .ok raws =>
      if raws.isEmpty then
        finish_run env (record_run_start src env db0) "success" Option.none
          raws.length 0 0 Option.none
      else
        match adapter_save_raw src env (record_run_start src env db0) raws with
        | .error e =>
            fail_run src env (record_run_start src env db0) raws.length 0 0 e
        | .ok sr =>
            if !env.loopConnOk then
              fail_run src env sr.2 raws.length 0 0 "OperationalError: connect"
            else if !env.commitOk then
              fail_run src env sr.2 raws.length
                (process_records src env raws).2.1
                (process_records src env raws).2.2 "OperationalError: commit"
            else
              match checkpoint_advance src env (apply_commit src env sr.2 raws)
                  raws.length (process_records src env raws).2.1 with
              | .error e =>
                  fail_run src env (apply_commit src env sr.2 raws) raws.length
                    (process_records src env raws).2.1
                    (process_records src env raws).2.2 e
              | .ok dc =>
                  finish_run env dc.1 "success" Option.none raws.length
                    (process_records src env raws).2.1
                    (process_records src env raws).2.2 (some dc.2)

/-! ### Helper lemmas -/

theorem exc_bind_ok {α β : Type} {x : Except String α} {f : α → Except String β}
    {b : β} (h : x >>= f = Except.ok b) :
    ∃ a, x = Except.ok a ∧ f a = Except.ok b := by
  cases x with
  | ok a => exact ⟨a, rfl, h⟩
  | error e => exact Except.noConfusion h

/-- Successful runs of `normalize_csv` are exactly the records assembled
from the six field reads. -/
theorem normalize_csv_shape {raw : RawRecord} {ts : Nat}
    {n : NormalizedCryptoData} (h : normalize_csv raw ts = Except.ok n) :
    ∃ sym price mcap vol pct nm,
      pyUpper (pyGet raw "symbol" (.str "")) = Except.ok sym ∧
      decOptIfTruthy (pyGet raw "price_usd" .none) = Except.ok price ∧
      decOptIfTruthy (pyGet raw "market_cap_usd" .none) = Except.ok mcap ∧
      decOptIfTruthy (pyGet raw "volume_24h_usd" .none) = Except.ok vol ∧
      decOptIfTruthy (pyGet raw "percent_change_24h" .none) = Except.ok pct ∧
      asStr (pyGet raw "name" (.str "")) = Except.ok nm ∧
      n = { source := "csv", source_id := "csv_" ++ sym, symbol := sym,
            name := nm, price_usd := price, market_cap_usd := mcap,
            volume_24h_usd := vol, rank := Option.none,
            circulating_supply := Option.none, total_supply := Option.none,
            max_supply := Option.none, percent_change_24h := pct,
            additional_data := [], data_timestamp := ts } := by
  unfold normalize_csv at h
  obtain ⟨sym, h1, h⟩ := exc_bind_ok h
  obtain ⟨price, h2, h⟩ := exc_bind_ok h
  obtain ⟨mcap, h3, h⟩ := exc_bind_ok h
  obtain ⟨vol, h4, h⟩ := exc_bind_ok h
  obtain ⟨pct, h5, h⟩ := exc_bind_ok h
  obtain ⟨nm, h6, h⟩ := exc_bind_ok h
  exact ⟨sym, price, mcap, vol, pct, nm, h1, h2, h3, h4, h5, h6,
    (Except.ok.inj h).symm⟩

/-- Successful runs of `normalize_coinpaprika` are exactly the records
assembled from the thirteen field reads. -/
theorem normalize_coinpaprika_shape {raw : RawRecord} {ts : Nat}
    {n : NormalizedCryptoData}
    (h : normalize_coinpaprika raw ts = Except.ok n) :
    ∃ p1 vm sym price mcap vol circ tot mx pct sid nm rk,
      coinpaprika_price_source raw = Except.ok p1 ∧
      coinpaprika_vol_mcap_source raw = Except.ok vm ∧
      pyUpper (pyGet raw "symbol" (.str "")) = Except.ok sym ∧
      decOptIfTruthy p1 = Except.ok price ∧
      decOptIfTruthy vm.2 = Except.ok mcap ∧
      decOptIfTruthy vm.1 = Except.ok vol ∧
      decOptIfTruthy (pyGet raw "circulating_supply" .none) = Except.ok circ ∧
      decOptIfTruthy (pyGet raw "total_supply" .none) = Except.ok tot ∧
      decOptIfTruthy (pyGet raw "max_supply" .none) = Except.ok mx ∧
      decOptIfTruthy (pyGet raw "percent_change_24h" .none) = Except.ok pct ∧
      asStr (pyOr (pyGet raw "coin_id" .none) (pyGet raw "id" (.str ""))) = Except.ok sid ∧
      asStr (pyGet raw "name" (.str "")) = Except.ok nm ∧
      asOptInt (pyGet raw "rank" .none) = Except.ok rk ∧
      n = { source := "coinpaprika", source_id := sid, symbol := sym,
            name := nm, price_usd := price, market_cap_usd := mcap,
            volume_24h_usd := vol, rank := rk, circulating_supply := circ,
            total_supply := tot, max_supply := mx,
            percent_change_24h := pct,
            additional_data :=
              [("percent_change_1h", pyGet raw "percent_change_1h" .none),
               ("percent_change_7d", pyGet raw "percent_change_7d" .none)],
            data_timestamp := ts } := by
  unfold normalize_coinpaprika at h
  obtain ⟨p1, h1, h⟩ := exc_bind_ok h
  obtain ⟨vm, h2, h⟩ := exc_bind_ok h
  obtain ⟨sym, h3, h⟩ := exc_bind_ok h
  obtain ⟨price, h4, h⟩ := exc_bind_ok h
  obtain ⟨mcap, h5, h⟩ := exc_bind_ok h
  obtain ⟨vol, h6, h⟩ := exc_bind_ok h
  obtain ⟨circ, h7, h⟩ := exc_bind_ok h
  obtain ⟨tot, h8, h⟩ := exc_bind_ok h
  obtain ⟨mx, h9, h⟩ := exc_bind_ok h
  obtain ⟨pct, h10, h⟩ := exc_bind_ok h
  obtain ⟨sid, h11, h⟩ := exc_bind_ok h
  obtain ⟨nm, h12, h⟩ := exc_bind_ok h
  obtain ⟨rk, h13, h⟩ := exc_bind_ok h
  exact ⟨p1, vm, sym, price, mcap, vol, circ, tot, mx, pct, sid, nm, rk,
    h1, h2, h3, h4, h5, h6, h7, h8, h9, h10, h11, h12, h13,
    (Except.ok.inj h).symm⟩

/-- Successful runs of `normalize_coingecko` are exactly the records
assembled from the eleven field reads. -/
theorem normalize_coingecko_shape {raw : RawRecord} {ts : Nat}
    {n : NormalizedCryptoData}
    (h : normalize_coingecko raw ts = Except.ok n) :
    ∃ sym price mcap vol circ tot mx pct sid nm rk,
      pyUpper (pyGet raw "symbol" (.str "")) = Except.ok sym ∧
      decOptIfTruthy (pyGet raw "current_price" .none) = Except.ok price ∧
      decOptIfTruthy (pyGet raw "market_cap" .none) = Except.ok mcap ∧
      decOptIfTruthy (pyGet raw "total_volume" .none) = Except.ok vol ∧
      decOptIfTruthy (pyGet raw "circulating_supply" .none) = Except.ok circ ∧
      decOptIfTruthy (pyGet raw "total_supply" .none) = Except.ok tot ∧
      decOptIfTruthy (pyGet raw "max_supply" .none) = Except.ok mx ∧
      decOptIfTruthy (pyGet raw "price_change_percentage_24h" .none) = Except.ok pct ∧
      asStr (pyOr (pyGet raw "coin_id" .none) (pyGet raw "id" (.str ""))) = Except.ok sid ∧
      asStr (pyGet raw "name" (.str "")) = Except.ok nm ∧
      asOptInt (pyGet raw "market_cap_rank" .none) = Except.ok rk ∧
      n = { source := "coingecko", source_id := sid, symbol := sym,
            name := nm, price_usd := price, market_cap_usd := mcap,
            volume_24h_usd := vol, rank := rk, circulating_supply := circ,
            total_supply := tot, max_supply := mx,
            percent_change_24h := pct,
            additional_data :=
              [("high_24h", pyGet raw "high_24h" .none),
               ("low_24h", pyGet raw "low_24h" .none),
               ("price_change_24h", pyGet raw "price_change_24h" .none),
               ("ath", pyGet raw "ath" .none),
               ("atl", pyGet raw "atl" .none)],
            data_timestamp := ts } := by
  unfold normalize_coingecko at h
  obtain ⟨sym, h1, h⟩ := exc_bind_ok h
  obtain ⟨price, h2, h⟩ := exc_bind_ok h
  obtain ⟨mcap, h3, h⟩ := exc_bind_ok h
  obtain ⟨vol, h4, h⟩ := exc_bind_ok h
  obtain ⟨circ, h5, h⟩ := exc_bind_ok h
  obtain ⟨tot, h6, h⟩ := exc_bind_ok h
  obtain ⟨mx, h7, h⟩ := exc_bind_ok h
  obtain ⟨pct, h8, h⟩ := exc_bind_ok h
  obtain ⟨sid, h9, h⟩ := exc_bind_ok h
  obtain ⟨nm, h10, h⟩ := exc_bind_ok h
  obtain ⟨rk, h11, h⟩ := exc_bind_ok h
  exact ⟨sym, price, mcap, vol, circ, tot, mx, pct, sid, nm, rk,
    h1, h2, h3, h4, h5, h6, h7, h8, h9, h10, h11, (Except.ok.inj h).symm⟩

/-- A zero value is falsy, so the `Decimal(str(v)) if v else None` idiom
maps it to `None`. -/
theorem decOptIfTruthy_zero {v : PyVal}
    (hv : v = PyVal.int 0 ∨ v = PyVal.float 0) :
    decOptIfTruthy v = Except.ok Option.none := by
  rcases hv with h | h <;> subst h <;> rfl

/-- C8 counterexample: on the record with both `symbol` and `name`
absent, all three normalizers *succeed* (returning `symbol = ""` and
`name = ""`) instead of raising. -/
theorem c8_counterexample :
    (∃ n, normalize_coinpaprika [] 0 = Except.ok n ∧ n.symbol = "" ∧ n.name = "") ∧
    (∃ n, normalize_coingecko [] 0 = Except.ok n ∧ n.symbol = "" ∧ n.name = "") ∧
    (∃ n, normalize_csv [] 0 = Except.ok n ∧ n.symbol = "" ∧ n.name = "") :=
  ⟨⟨_, rfl, rfl, rfl⟩, ⟨_, rfl, rfl, rfl⟩, ⟨_, rfl, rfl, rfl⟩⟩

/-- C8 (amended): on a record with `symbol` and `name` absent, each
normalizer silently substitutes the empty string for both fields:
whenever it returns a record at all, that record has `symbol = ""` and
`name = ""` (and `c8_counterexample` shows it does return one). -/
theorem c8_amended_empty_default (raw : RawRecord) (ts : Nat)
    (hs : dictLookup raw "symbol" = Option.none)
    (hn : dictLookup raw "name" = Option.none) :
    (∀ n, normalize_coinpaprika raw ts = Except.ok n → n.symbol = "" ∧ n.name = "") ∧
    (∀ n, normalize_coingecko raw ts = Except.ok n → n.symbol = "" ∧ n.name = "") ∧
    (∀ n, normalize_csv raw ts = Except.ok n → n.symbol = "" ∧ n.name = "") := by
  have hsym : pyGet raw "symbol" (.str "") = PyVal.str "" := by
    simp [pyGet, hs]
  have hnm : pyGet raw "name" (.str "") = PyVal.str "" := by
    simp [pyGet, hn]
  refine ⟨?_, ?_, ?_⟩
  · intro n h
    obtain ⟨p1, vm, sym, price, mcap, vol, circ, tot, mx, pct, sid, nm, rk,
      _, _, h3, _, _, _, _, _, _, _, _, h12, _, hneq⟩ :=
      normalize_coinpaprika_shape h
    rw [hsym] at h3
    rw [hnm] at h12
    have e3 : "" = sym := Except.ok.inj h3
    have e12 : "" = nm := Except.ok.inj h12
    subst hneq
    exact ⟨e3.symm, e12.symm⟩
  · intro n h
    obtain ⟨sym, price, mcap, vol, circ, tot, mx, pct, sid, nm, rk,
      h1, _, _, _, _, _, _, _, _, h10, _, hneq⟩ := normalize_coingecko_shape h
    rw [hsym] at h1
    rw [hnm] at h10
    have e1 : "" = sym := Except.ok.inj h1
    have e10 : "" = nm := Except.ok.inj h10
    subst hneq
    exact ⟨e1.symm, e10.symm⟩
  · intro n h
    obtain ⟨sym, price, mcap, vol, pct, nm, h1, _, _, _, _, h6, hneq⟩ :=
      normalize_csv_shape h
    rw [hsym] at h1
    rw [hnm] at h6
    have e1 : "" = sym := Except.ok.inj h1
    have e6 : "" = nm := Except.ok.inj h6
    subst hneq
    exact ⟨e1.symm, e6.symm⟩

/-- C8 witness: instantiating the amended claim at the empty record. -/
theorem c8_witness :
    (normalize_csv [] 0).map (fun n => (n.symbol, n.name)) =
      Except.ok ("", "") := by
  have h := (c8_amended_empty_default [] 0 rfl rfl).2.2 _ rfl
  exact rfl

/-- C10 counterexample: a coinpaprika record whose `market_cap_usd` is
present with value `0` but whose `volume_24h_usd` is absent while
`quotes` is present: both volume and market cap are re-read from
`quotes.USD`, so the zero market cap normalizes to `5`, not to null. -/
theorem c10_counterexample :
    (normalize_coinpaprika
        [("market_cap_usd", .int 0),
         ("quotes", .dict [("USD", .dict [("market_cap", .int 5)])])] 0).map
      (fun n => n.market_cap_usd) = Except.ok (some (5 : Rat)) := rfl

/-- C10 (amended): a numeric field present with the exact value `0`
normalizes to null — for all four numeric fields of `normalize_csv` and
for `price_usd`, `volume_24h_usd`, the supply fields and
`percent_change_24h` of `normalize_coinpaprika`; for coinpaprika's
`market_cap_usd` this holds provided `quotes` is absent or
`volume_24h_usd` is present and non-`None` (otherwise both are re-read
from `quotes.USD` and the zero is ignored, see `c10_counterexample`). -/
theorem c10_amended_zero_to_null (raw : RawRecord) (ts : Nat) (v : PyVal)
    (hv : v = PyVal.int 0 ∨ v = PyVal.float 0) :
    (∀ n, dictLookup raw "price_usd" = some v →
      normalize_csv raw ts = Except.ok n → n.price_usd = Option.none) ∧
    (∀ n, dictLookup raw "market_cap_usd" = some v →
      normalize_csv raw ts = Except.ok n → n.market_cap_usd = Option.none) ∧
    (∀ n, dictLookup raw "volume_24h_usd" = some v →
      normalize_csv raw ts = Except.ok n → n.volume_24h_usd = Option.none) ∧
    (∀ n, dictLookup raw "percent_change_24h" = some v →
      normalize_csv raw ts = Except.ok n → n.percent_change_24h = Option.none) ∧
    (∀ n, dictLookup raw "price_usd" = some v →
      normalize_coinpaprika raw ts = Except.ok n → n.price_usd = Option.none) ∧
    (∀ n, dictLookup raw "volume_24h_usd" = some v →
      normalize_coinpaprika raw ts = Except.ok n → n.volume_24h_usd = Option.none) ∧
    (∀ n, dictLookup raw "circulating_supply" = some v →
      normalize_coinpaprika raw ts = Except.ok n → n.circulating_supply = Option.none) ∧
    (∀ n, dictLookup raw "total_supply" = some v →
      normalize_coinpaprika raw ts = Except.ok n → n.total_supply = Option.none) ∧
    (∀ n, dictLookup raw "max_supply" = some v →
      normalize_coinpaprika raw ts = Except.ok n → n.max_supply = Option.none) ∧
    (∀ n, dictLookup raw "percent_change_24h" = some v →
      normalize_coinpaprika raw ts = Except.ok n → n.percent_change_24h = Option.none) ∧
    (∀ n, dictLookup raw "market_cap_usd" = some v →
      (hasKey raw "quotes" = false ∨
        ∃ w, dictLookup raw "volume_24h_usd" = some w ∧ w ≠ PyVal.none) →
      normalize_coinpaprika raw ts = Except.ok n → n.market_cap_usd = Option.none) := by
  have hz := decOptIfTruthy_zero hv
  have hvne : v ≠ PyVal.none := by
    rcases hv with h | h <;> subst h <;> intro hc <;> cases hc
  refine ⟨?_, ?_, ?_, ?_, ?_, ?_, ?_, ?_, ?_, ?_, ?_⟩
  · intro n hk h
    obtain ⟨sym, price, mcap, vol, pct, nm, _, h2, _, _, _, _, hneq⟩ :=
      normalize_csv_shape h
    rw [pyGet, hk, Option.getD, hz] at h2
    subst hneq
    exact (Except.ok.inj h2).symm
  · intro n hk h
    obtain ⟨sym, price, mcap, vol, pct, nm, _, _, h3, _, _, _, hneq⟩ :=
      normalize_csv_shape h
    rw [pyGet, hk, Option.getD, hz] at h3
    subst hneq
    exact (Except.ok.inj h3).symm
  · intro n hk h
    obtain ⟨sym, price, mcap, vol, pct, nm, _, _, _, h4, _, _, hneq⟩ :=
      normalize_csv_shape h
    rw [pyGet, hk, Option.getD, hz] at h4
    subst hneq
    exact (Except.ok.inj h4).symm
  · intro n hk h
    obtain ⟨sym, price, mcap, vol, pct, nm, _, _, _, _, h5, _, hneq⟩ :=
      normalize_csv_shape h
    rw [pyGet, hk, Option.getD, hz] at h5
    subst hneq
    exact (Except.ok.inj h5).symm
  · intro n hk h
    obtain ⟨p1, vm, sym, price, mcap, vol, circ, tot, mx, pct, sid, nm, rk,
      h1, _, _, h4, _, _, _, _, _, _, _, _, _, hneq⟩ :=
      normalize_coinpaprika_shape h
    unfold coinpaprika_price_source at h1
    rw [pyGet, hk, Option.getD] at h1
    have hp1 : p1 = v := by
      rcases hv with hv' | hv' <;> subst hv' <;> exact (Except.ok.inj h1).symm
    rw [hp1, hz] at h4
    subst hneq
    exact (Except.ok.inj h4).symm
  · intro n hk h
    obtain ⟨p1, vm, sym, price, mcap, vol, circ, tot, mx, pct, sid, nm, rk,
      _, h2, _, _, _, h6, _, _, _, _, _, _, _, hneq⟩ :=
      normalize_coinpaprika_shape h
    unfold coinpaprika_vol_mcap_source at h2
    rw [pyGet, hk, Option.getD] at h2
    have hvm : vm.1 = v := by
      rcases hv with hv' | hv' <;> subst hv' <;>
        exact congrArg Prod.fst (Except.ok.inj h2).symm
    rw [hvm, hz] at h6
    subst hneq
    exact (Except.ok.inj h6).symm
  · intro n hk h
    obtain ⟨p1, vm, sym, price, mcap, vol, circ, tot, mx, pct, sid, nm, rk,
      _, _, _, _, _, _, h7, _, _, _, _, _, _, hneq⟩ :=
      normalize_coinpaprika_shape h
    rw [pyGet, hk, Option.getD, hz] at h7
    subst hneq
    exact (Except.ok.inj h7).symm
  · intro n hk h
    obtain ⟨p1, vm, sym, price, mcap, vol, circ, tot, mx, pct, sid, nm, rk,
      _, _, _, _, _, _, _, h8, _, _, _, _, _, hneq⟩ :=
      normalize_coinpaprika_shape h
    rw [pyGet, hk, Option.getD, hz] at h8
    subst hneq
    exact (Except.ok.inj h8).symm
  · intro n hk h
    obtain ⟨p1, vm, sym, price, mcap, vol, circ, tot, mx, pct, sid, nm, rk,
      _, _, _, _, _, _, _, _, h9, _, _, _, _, hneq⟩ :=
      normalize_coinpaprika_shape h
    rw [pyGet, hk, Option.getD, hz] at h9
    subst hneq
    exact (Except.ok.inj h9).symm
  · intro n hk h
    obtain ⟨p1, vm, sym, price, mcap, vol, circ, tot, mx, pct, sid, nm, rk,
      _, _, _, _, _, _, _, _, _, h10, _, _, _, hneq⟩ :=
      normalize_coinpaprika_shape h
    rw [pyGet, hk, Option.getD, hz] at h10
    subst hneq
    exact (Except.ok.inj h10).symm
  · intro n hk hcond h
    obtain ⟨p1, vm, sym, price, mcap, vol, circ, tot, mx, pct, sid, nm, rk,
      _, h2, _, _, h5, _, _, _, _, _, _, _, _, hneq⟩ :=
      normalize_coinpaprika_shape h
    unfold coinpaprika_vol_mcap_source at h2
    have hvm2 : vm.2 = v := by
      rcases hcond with hq | ⟨w, hw, hwne⟩
      · cases hv0 : pyGet raw "volume_24h_usd" PyVal.none with
        | none =>
            rw [hv0, hq] at h2
            simp only [Bool.false_eq_true, if_false] at h2
            have := (Except.ok.inj h2).symm
            rw [this]
            simp [pyGet, hk]
        | bool b =>
            rw [hv0] at h2
            have := (Except.ok.inj h2).symm
            rw [this]
            simp [pyGet, hk]
        | int m =>
            rw [hv0] at h2
            have := (Except.ok.inj h2).symm
            rw [this]
            simp [pyGet, hk]
        | float q =>
            rw [hv0] at h2
            have := (Except.ok.inj h2).symm
            rw [this]
            simp [pyGet, hk]
        | str s =>
            rw [hv0] at h2
            have := (Except.ok.inj h2).symm
            rw [this]
            simp [pyGet, hk]
        | list xs =>
            rw [hv0] at h2
            have := (Except.ok.inj h2).symm
            rw [this]
            simp [pyGet, hk]
        | dict fs =>
            rw [hv0] at h2
            have := (Except.ok.inj h2).symm
            rw [this]
            simp [pyGet, hk]
      · have hv0 : pyGet raw "volume_24h_usd" PyVal.none = w := by
          simp [pyGet, hw]
        rw [hv0] at h2
        cases w with
        | none => exact absurd rfl hwne
        | bool b =>
            have := (Except.ok.inj h2).symm
            rw [this]
            simp [pyGet, hk]
        | int m =>
            have := (Except.ok.inj h2).symm
            rw [this]
            simp [pyGet, hk]
        | float q =>
            have := (Except.ok.inj h2).symm
            rw [this]
            simp [pyGet, hk]
        | str s =>
            have := (Except.ok.inj h2).symm
            rw [this]
            simp [pyGet, hk]
        | list xs =>
            have := (Except.ok.inj h2).symm
            rw [this]
            simp [pyGet, hk]
        | dict fs =>
            have := (Except.ok.inj h2).symm
            rw [this]
            simp [pyGet, hk]
    rw [hvm2, hz] at h5
    subst hneq
    exact (Except.ok.inj h5).symm

/-- C10 witness: instantiating the amended claim on a record with
`price_usd = 0`. -/
theorem c10_witness :
    (normalize_csv [("symbol", .str "A"), ("name", .str "B"),
      ("price_usd", .int 0)] 0).map (fun n => n.price_usd) =
      Except.ok Option.none := by
  have h := (c10_amended_zero_to_null
    [("symbol", .str "A"), ("name", .str "B"), ("price_usd", .int 0)] 0
    (PyVal.int 0) (Or.inl rfl)).1 _ rfl rfl
  exact rfl

theorem exc_map_ok {α β : Type} {x : Except String α} {f : α → β} {b : β}
    (h : x.map f = Except.ok b) : ∃ a, x = Except.ok a ∧ f a = b := by
  cases x with
  | ok a => exact ⟨a, rfl, Except.ok.inj h⟩
  | error e => exact Except.noConfusion h

/-- A checkpoint row exists: `get_last_row_number` raises `KeyError`,
because the dict built by `get_checkpoint` has no `"type"` key. -/
theorem get_last_row_number_some {store : CheckpointStore} {s : String}
    {r : CheckpointRow} (h : storeLookup store s = some r) :
    get_last_row_number store s = Except.error "KeyError: type" := by
  unfold get_last_row_number get_checkpoint
  rw [h]
  rfl

/-- No checkpoint row: `get_last_row_number` returns 0. -/
theorem get_last_row_number_no_row {store : CheckpointStore} {s : String}
    (h : storeLookup store s = Option.none) :
    get_last_row_number store s = Except.ok 0 := by
  unfold get_last_row_number get_checkpoint
  rw [h]
  rfl

/-- `get_last_row_number` can only return successfully with value 0, and
only when no checkpoint row exists. -/
theorem get_last_row_number_ok {store : CheckpointStore} {s : String} {n : Nat}
    (h : get_last_row_number store s = Except.ok n) :
    n = 0 ∧ storeLookup store s = Option.none := by
  cases hl : storeLookup store s with
  | none =>
      rw [get_last_row_number_no_row hl] at h
      exact ⟨(Except.ok.inj h).symm, rfl⟩
  | some r =>
      rw [get_last_row_number_some hl] at h
      exact Except.noConfusion h

/-- Counting fold: each item passing the filter adds exactly one to the
first component, whatever the second component does. -/
theorem count_fold {α β : Type} (p : α → Bool) (step : Nat × β → α → β) :
    ∀ (l : List α) (k : Nat) (t : β),
      (l.foldl (fun acc item =>
        if p item then (acc.1 + 1, step acc item) else acc) (k, t)).1 =
        k + (l.filter p).length := by
  intro l
  induction l with
  | nil => intro k t; simp
  | cons hd tl ih =>
      intro k t
      cases hp : p hd with
      | true =>
          rw [List.foldl_cons, if_pos hp, List.filter_cons, if_pos hp, ih,
            List.length_cons]
          omega
      | false =>
          have hnp : ¬(p hd = true) := by simp [hp]
          rw [List.foldl_cons, if_neg hnp, List.filter_cons, if_neg hnp, ih]

/-- C9: with `COINPAPRIKA_SCHEMA` set, a perfectly well-shaped record —
`price_usd` etc. carrying floats, which the schema's `(float, NoneType)`
tuples are meant to allow — makes `detect_drift` raise `AttributeError`:
`type(value) != expected_type` is always true against a tuple, and the
mismatch message then reads `expected_type.__name__`, which tuples do not
have. -/
theorem c9_tuple_type_mismatch_crash :
    detect_drift (some COINPAPRIKA_SCHEMA)
      [("coin_id", .str "btc-bitcoin"), ("symbol", .str "BTC"),
       ("name", .str "Bitcoin"), ("rank", .int 1),
       ("price_usd", .float 43251), ("volume_24h_usd", .float 285),
       ("market_cap_usd", .float 845)] =
    Except.error "AttributeError: __name__" := rfl

/-- C5: `CSVSource.fetch` returns `[]` when the file is absent and the
full row list (in order) when no checkpoint row exists — but as soon as a
checkpoint row for `csv` exists, the `KeyError` from
`get_last_row_number` propagates and fetch raises instead of slicing. -/
theorem c5_csv_fetch_eval :
    csv_fetch false [[("symbol", .str "BTC")]] [] = Except.ok [] ∧
    csv_fetch true [[("symbol", .str "BTC")], [("symbol", .str "ETH")]] [] =
      Except.ok [[("symbol", .str "BTC")], [("symbol", .str "ETH")]] ∧
    csv_fetch true [[("symbol", .str "BTC")], [("symbol", .str "ETH")]]
      [("csv", { checkpoint_value := some "1", last_success_at := some 1,
                 last_failure_at := Option.none, failure_reason := Option.none,
                 metadata := Option.none, updated_at := some 1 })] =
      Except.error "KeyError: type" := ⟨rfl, rfl, rfl⟩

/-- C7 counterexample: replaying `save_raw` with the very same record
(and so the same unique key) returns 1 again, not 0 — `saved_count` is
incremented even for the conflict-skipped row, as the unchanged archive
shows. -/
theorem c7_counterexample :
    (coinpaprika_save_raw true []
      [[("coin_id", .str "btc"), ("symbol", .str "BTC"), ("name", .str "Bitcoin")]]
      5).map Prod.fst = Except.ok 1 ∧
    (coinpaprika_save_raw true [(some "btc", 5)]
      [[("coin_id", .str "btc"), ("symbol", .str "BTC"), ("name", .str "Bitcoin")]]
      5).map Prod.fst = Except.ok 1 ∧
    (coinpaprika_save_raw true [(some "btc", 5)]
      [[("coin_id", .str "btc"), ("symbol", .str "BTC"), ("name", .str "Bitcoin")]]
      5).map Prod.snd = Except.ok [(some "btc", 5)] := ⟨rfl, rfl, rfl⟩

/-- C7 (amended): `save_raw` returns the number of records that pass
validation — the number of inserts *attempted*, counting rows skipped by
`ON CONFLICT DO NOTHING` — independently of the archive's prior
contents; replaying the same batch therefore returns the same count, not
0. (For the csv source this is stated under the only reachable
checkpoint state, no `csv` row, since an existing row makes
`get_last_row_number` raise first.) -/
theorem c7_amended_count_ignores_conflicts (now : Nat)
    (data : List RawRecord) (tblp tblg : List (Option String × Nat))
    (tblc : List (String × Nat)) (store : CheckpointStore) (path : String)
    (hs : storeLookup store "csv" = Option.none) :
    (coinpaprika_save_raw true tblp data now).map Prod.fst =
      Except.ok ((data.filter coinpaprika_validate).length) ∧
    (coingecko_save_raw true tblg data now).map Prod.fst =
      Except.ok ((data.filter coingecko_validate).length) ∧
    (csv_save_raw true store tblc data path).map Prod.fst =
      Except.ok ((data.filter csv_validate).length) := by
  refine ⟨?_, ?_, ?_⟩
  · cases data with
    | nil => rfl
    | cons hd tl =>
        unfold coinpaprika_save_raw
        simp only [List.isEmpty_cons, Bool.false_eq_true, if_false,
          Bool.not_true, Except.map]
        exact congrArg Except.ok
          ((count_fold _ _ (hd :: tl) 0 tblp).trans (Nat.zero_add _))
  · cases data with
    | nil => rfl
    | cons hd tl =>
        unfold coingecko_save_raw
        simp only [List.isEmpty_cons, Bool.false_eq_true, if_false,
          Bool.not_true, Except.map]
        exact congrArg Except.ok
          ((count_fold _ _ (hd :: tl) 0 tblg).trans (Nat.zero_add _))
  · cases data with
    | nil => rfl
    | cons hd tl =>
        unfold csv_save_raw
        rw [get_last_row_number_no_row hs]
        simp only [List.isEmpty_cons, Bool.false_eq_true, if_false,
          Bool.not_true, Except.map, bind, Except.bind]
        refine congrArg Except.ok ?_
        rw [count_fold (fun it => csv_validate it.2)
          (fun acc it =>
            if acc.2.contains (path, 0 + it.1 + 1) then acc.2
            else acc.2 ++ [(path, 0 + it.1 + 1)]) ((hd :: tl).enum) 0 tblc]
        have hm : List.map Prod.snd ((hd :: tl).enum) = hd :: tl :=
          List.enum_map_snd (hd :: tl)
        calc 0 + (((hd :: tl).enum.filter fun it => csv_validate it.2).length)
            = ((((hd :: tl).enum.map Prod.snd).filter csv_validate).length) := by
              rw [List.filter_map]
              simp only [List.length_map, Nat.zero_add]
              rfl
          _ = (((hd :: tl).filter csv_validate).length) := by rw [hm]

/-- C7 witness: instantiating the amended claim on a singleton batch. -/
theorem c7_witness :
    (coinpaprika_save_raw true []
      [[("coin_id", .str "btc"), ("symbol", .str "BTC"), ("name", .str "Bitcoin")]]
      5).map Prod.fst = Except.ok 1 := by
  have h := (c7_amended_count_ignores_conflicts 5
    [[("coin_id", .str "btc"), ("symbol", .str "BTC"), ("name", .str "Bitcoin")]]
    [] [] [] [] "f" rfl).1
  exact h

/-! ### Lemmas about the checkpoint store and the orchestrator -/

theorem update_checkpoint_fail_eq (now : Nat) (store : CheckpointStore)
    (src : String) (cv : String) (err : Option String)
    (meta : Option (List (String × PyVal))) :
    update_checkpoint true now store src cv false err meta =
      Except.ok (store.map fun p => if p.1 = src then
        (p.1, { p.2 with
                  last_failure_at := some now,
                  failure_reason := err,
                  updated_at := some now }) else p) := rfl

theorem update_checkpoint_success_eq (now : Nat) (store : CheckpointStore)
    (src : String) (cv : String) (err : Option String)
    (meta : Option (List (String × PyVal))) :
    update_checkpoint true now store src cv true err meta =
      Except.ok (store.map fun p => if p.1 = src then
        (p.1, { p.2 with
                  checkpoint_value := some cv,
                  last_success_at := some now,
                  metadata := meta,
                  updated_at := some now }) else p) := rfl

theorem update_checkpoint_db_down (now : Nat) (store : CheckpointStore)
    (src : String) (cv : String) (success : Bool) (err : Option String)
    (meta : Option (List (String × PyVal))) :
    update_checkpoint false now store src cv success err meta =
      Except.error "Failed to update checkpoint" := rfl

/-- Looking up after a key-preserving in-place update of one source's
row. -/
theorem storeLookup_update (g : CheckpointRow → CheckpointRow) (src : String) :
    ∀ (store : CheckpointStore) (s : String),
      storeLookup (store.map fun p => if p.1 = src then (p.1, g p.2) else p) s =
        if s = src then (storeLookup store s).map g else storeLookup store s := by
  intro store
  induction store with
  | nil =>
      intro s
      simp only [List.map_nil, storeLookup]
      split <;> rfl
  | cons hd tl ih =>
      obtain ⟨k, r⟩ := hd
      intro s
      simp only [List.map_cons]
      by_cases h1 : k = src
      · rw [if_pos (show (k, r).1 = src from h1)]
        simp only [storeLookup]
        by_cases h2 : k = s
        · rw [if_pos (show (k, r).1 = s from h2), if_pos (h2.symm.trans h1),
            if_pos h2]
          rfl
        · rw [if_neg (show ¬ (k, r).1 = s from h2)]
          simp only [if_neg h2]
          rw [ih]
      · rw [if_neg (show ¬ (k, r).1 = src from h1)]
        simp only [storeLookup]
        by_cases h2 : k = s
        · have hs : ¬ s = src := fun hc => h1 (h2.trans hc)
          rw [if_pos h2, if_neg hs, if_pos h2]
        · simp only [if_neg h2]
          rw [ih]

theorem record_run_start_checkpoints (src : SourceKind) (env : EtlEnv)
    (db0 : DBState) :
    (record_run_start src env db0).etl_checkpoints = db0.etl_checkpoints := by
  unfold record_run_start
  split <;> rfl

theorem record_run_start_normalized (src : SourceKind) (env : EtlEnv)
    (db0 : DBState) :
    (record_run_start src env db0).normalized_crypto_data =
      db0.normalized_crypto_data := by
  unfold record_run_start
  split <;> rfl

theorem adapter_save_raw_frame {src : SourceKind} {env : EtlEnv}
    {db : DBState} {data : List RawRecord} {sr : Nat × DBState}
    (h : adapter_save_raw src env db data = Except.ok sr) :
    sr.2.etl_checkpoints = db.etl_checkpoints ∧
    sr.2.normalized_crypto_data = db.normalized_crypto_data ∧
    sr.2.etl_runs = db.etl_runs := by
  cases src <;>
    (unfold adapter_save_raw at h
     obtain ⟨a, _, hf⟩ := exc_map_ok h
     rw [← hf]
     exact ⟨rfl, rfl, rfl⟩)

theorem finish_run_fields (env : EtlEnv) (db : DBState) (status : String)
    (err : Option String) (f p fl : Nat) (ckv : Option String) :
    (finish_run env db status err f p fl ckv).status = status ∧
    (finish_run env db status err f p fl ckv).records_fetched = f ∧
    (finish_run env db status err f p fl ckv).records_processed = p ∧
    (finish_run env db status err f p fl ckv).records_failed = fl ∧
    (finish_run env db status err f p fl ckv).error_message = err ∧
    (finish_run env db status err f p fl ckv).escaped = Option.none ∧
    (finish_run env db status err f p fl ckv).ckValueWritten = ckv ∧
    (finish_run env db status err f p fl ckv).db.etl_checkpoints =
      db.etl_checkpoints ∧
    (finish_run env db status err f p fl ckv).db.normalized_crypto_data =
      db.normalized_crypto_data :=
  ⟨rfl, rfl, rfl, rfl, rfl, rfl, rfl, rfl, rfl⟩

theorem fail_run_fields (src : SourceKind) (env : EtlEnv) (db : DBState)
    (f p fl : Nat) (e : String) :
    (fail_run src env db f p fl e).status = "failed" ∧
    (fail_run src env db f p fl e).records_fetched = f ∧
    (fail_run src env db f p fl e).records_processed = p ∧
    (fail_run src env db f p fl e).records_failed = fl ∧
    (fail_run src env db f p fl e).error_message = some e ∧
    (fail_run src env db f p fl e).db.normalized_crypto_data =
      db.normalized_crypto_data ∧
    (∀ s, (storeLookup (fail_run src env db f p fl e).db.etl_checkpoints s).map
        (fun r => r.checkpoint_value) =
      (storeLookup db.etl_checkpoints s).map (fun r => r.checkpoint_value)) ∧
    (∀ s, (storeLookup (fail_run src env db f p fl e).db.etl_checkpoints s).map
        (fun r => r.last_success_at) =
      (storeLookup db.etl_checkpoints s).map (fun r => r.last_success_at)) ∧
    (∀ s, (storeLookup (fail_run src env db f p fl e).db.etl_checkpoints s).map
        (fun r => r.metadata) =
      (storeLookup db.etl_checkpoints s).map (fun r => r.metadata)) ∧
    (env.ckFailWriteOk = true →
      (fail_run src env db f p fl e).escaped = Option.none ∧
      ∀ r, storeLookup db.etl_checkpoints (source_name src) = some r →
        storeLookup (fail_run src env db f p fl e).db.etl_checkpoints
            (source_name src) =
          some { r with
                   last_failure_at := some env.ckFailNow,
                   failure_reason := some e,
                   updated_at := some env.ckFailNow }) := by
  cases hok : env.ckFailWriteOk with
  | false =>
      simp [fail_run, hok, update_checkpoint_db_down]
  | true =>
      have hg : ∀ s, storeLookup (db.etl_checkpoints.map fun p =>
          if p.1 = source_name src then
            (p.1, { p.2 with
                      last_failure_at := some env.ckFailNow,
                      failure_reason := some e,
                      updated_at := some env.ckFailNow }) else p) s =
          if s = source_name src then
            (storeLookup db.etl_checkpoints s).map (fun r =>
              { r with
                  last_failure_at := some env.ckFailNow,
                  failure_reason := some e,
                  updated_at := some env.ckFailNow })
          else storeLookup db.etl_checkpoints s :=
        storeLookup_update
          (fun r => { r with
                        last_failure_at := some env.ckFailNow,
                        failure_reason := some e,
                        updated_at := some env.ckFailNow })
          (source_name src) db.etl_checkpoints
      simp only [fail_run, hok, update_checkpoint_fail_eq, finish_run]
      refine ⟨trivial, trivial, trivial, trivial, trivial, trivial, ?_, ?_, ?_, ?_⟩
      · intro s
        rw [hg s]
        split
        · cases storeLookup db.etl_checkpoints s <;> rfl
        · rfl
      · intro s
        rw [hg s]
        split
        · cases storeLookup db.etl_checkpoints s <;> rfl
        · rfl
      · intro s
        rw [hg s]
        split
        · cases storeLookup db.etl_checkpoints s <;> rfl
        · rfl
      · intro _
        refine ⟨trivial, ?_⟩
        intro r hr
        simp only [] at hg
        rw [hg (source_name src), if_pos rfl, hr]
        rfl

theorem process_step_counts (src : SourceKind) (env : EtlEnv)
    (acc : List NormRow × Nat × Nat) (it : Nat × RawRecord) :
    (process_step src env acc it).2.1 + (process_step src env acc it).2.2 =
      acc.2.1 + acc.2.2 + 1 := by
  unfold process_step
  split
  · show acc.2.1 + (acc.2.2 + 1) = acc.2.1 + acc.2.2 + 1
    omega
  · split
    · show acc.2.1 + (acc.2.2 + 1) = acc.2.1 + acc.2.2 + 1
      omega
    · show acc.2.1 + 1 + acc.2.2 = acc.2.1 + acc.2.2 + 1
      omega

theorem process_fold_counts (src : SourceKind) (env : EtlEnv) :
    ∀ (l : List (Nat × RawRecord)) (acc : List NormRow × Nat × Nat),
      ((l.foldl (process_step src env) acc).2.1 +
        (l.foldl (process_step src env) acc).2.2) =
      acc.2.1 + acc.2.2 + l.length := by
  intro l
  induction l with
  | nil => intro acc; simp
  | cons hd tl ih =>
      intro acc
      rw [List.foldl_cons, ih (process_step src env acc hd),
        process_step_counts]
      simp only [List.length_cons]
      omega

/-- Every fetched record increments exactly one of the two counters. -/
theorem process_records_counts (src : SourceKind) (env : EtlEnv)
    (raws : List RawRecord) :
    (process_records src env raws).2.1 + (process_records src env raws).2.2 =
      raws.length := by
  unfold process_records
  rw [process_fold_counts]
  simp [List.enum_length]

theorem process_step_master (src : SourceKind) (env : EtlEnv)
    (acc : List NormRow × Nat × Nat) (it : Nat × RawRecord)
    (h : ∀ n ∈ acc.1, n.master_coin_id = Option.none) :
    ∀ n ∈ (process_step src env acc it).1, n.master_coin_id = Option.none := by
  unfold process_step
  split
  · exact h
  · split
    · exact h
    · intro n hn
      rcases List.mem_append.mp hn with h1 | h2
      · exact h n h1
      · rw [List.mem_singleton.mp h2]
        rfl

/-- Every pending row built by the loop carries `master_coin_id = None`
(`model_dump()` of the normalizer output has no such key). -/
theorem process_records_master (src : SourceKind) (env : EtlEnv)
    (raws : List RawRecord) :
    ∀ n ∈ (process_records src env raws).1, n.master_coin_id = Option.none := by
  unfold process_records
  have hgen : ∀ (l : List (Nat × RawRecord)) (acc : List NormRow × Nat × Nat),
      (∀ n ∈ acc.1, n.master_coin_id = Option.none) →
      ∀ n ∈ (l.foldl (process_step src env) acc).1,
        n.master_coin_id = Option.none := by
    intro l
    induction l with
    | nil => intro acc h; exact h
    | cons hd tl ih =>
        intro acc h
        rw [List.foldl_cons]
        exact ih _ (process_step_master src env acc hd h)
  exact hgen raws.enum ([], 0, 0) (by intro n hn; exact absurd hn (List.not_mem_nil n))

theorem upsert_master_none {tbl : List NormRow} {n : NormRow}
    (ht : ∀ r ∈ tbl, r.master_coin_id = Option.none)
    (hn : n.master_coin_id = Option.none) :
    ∀ r ∈ upsert_normalized tbl n, r.master_coin_id = Option.none := by
  unfold upsert_normalized
  split
  · intro r hr
    rcases List.mem_map.mp hr with ⟨r0, hr0, heq⟩
    subst heq
    split
    · exact hn
    · exact ht r0 hr0
  · intro r hr
    rcases List.mem_append.mp hr with h1 | h2
    · exact ht r h1
    · rw [List.mem_singleton.mp h2]
      exact hn

theorem foldl_upsert_master_none :
    ∀ (pend : List NormRow) (tbl : List NormRow),
      (∀ r ∈ tbl, r.master_coin_id = Option.none) →
      (∀ n ∈ pend, n.master_coin_id = Option.none) →
      ∀ r ∈ pend.foldl upsert_normalized tbl, r.master_coin_id = Option.none := by
  intro pend
  induction pend with
  | nil => intro tbl ht _; exact ht
  | cons hd tl ih =>
      intro tbl ht hp
      rw [List.foldl_cons]
      exact ih _ (upsert_master_none ht (hp hd (List.mem_cons_self hd tl)))
        (fun n hn => hp n (List.mem_cons_of_mem hd hn))

/-- What a successful checkpoint advance wrote: a fresh
`utcnow().isoformat()` for the HTTP sources, `str(0 + fetched)` for csv
(0 because `get_last_row_number` only ever succeeds with 0); the database
keeps its normalized table. -/
theorem checkpoint_advance_ok {src : SourceKind} {env : EtlEnv} {db : DBState}
    {fetched p : Nat} {dc : DBState × String}
    (h : checkpoint_advance src env db fetched p = Except.ok dc) :
    dc.2 = (if src = SourceKind.csv then toString (0 + fetched)
            else isoformat env.checkpointNow) ∧
    dc.1.normalized_crypto_data = db.normalized_crypto_data := by
  cases src with
  | csv =>
      unfold checkpoint_advance at h
      obtain ⟨last, hlast, h⟩ := exc_bind_ok h
      obtain ⟨hl0, _⟩ := get_last_row_number_ok hlast
      subst hl0
      obtain ⟨y, hy, h⟩ := exc_bind_ok h
      obtain ⟨cps, hcps, hfin⟩ := exc_bind_ok h
      rw [← Except.ok.inj hfin, ← Except.ok.inj hy]
      exact ⟨rfl, rfl⟩
  | coinpaprika =>
      unfold checkpoint_advance at h
      obtain ⟨y, hy, h⟩ := exc_bind_ok h
      obtain ⟨cps, hcps, hfin⟩ := exc_bind_ok h
      rw [← Except.ok.inj hfin, ← Except.ok.inj hy]
      exact ⟨rfl, rfl⟩
  | coingecko =>
      unfold checkpoint_advance at h
      obtain ⟨y, hy, h⟩ := exc_bind_ok h
      obtain ⟨cps, hcps, hfin⟩ := exc_bind_ok h
      rw [← Except.ok.inj hfin, ← Except.ok.inj hy]
      exact ⟨rfl, rfl⟩

/-- Exhaustive decomposition of one orchestrator run into its seven
control-flow outcomes, with the facts each branch establishes. -/
theorem run_etl_cases (src : SourceKind) (env : EtlEnv) (db : DBState) :
    (∃ e, adapter_fetch src env (record_run_start src env db).etl_checkpoints =
        Except.error e ∧
      run_etl_for_source src env db =
        fail_run src env (record_run_start src env db) 0 0 0 e) ∨
    (adapter_fetch src env (record_run_start src env db).etl_checkpoints =
        Except.ok [] ∧
      run_etl_for_source src env db =
        finish_run env (record_run_start src env db) "success" Option.none
          0 0 0 Option.none) ∨
    (∃ raws e, adapter_fetch src env (record_run_start src env db).etl_checkpoints =
        Except.ok raws ∧
      adapter_save_raw src env (record_run_start src env db) raws =
        Except.error e ∧
      run_etl_for_source src env db =
        fail_run src env (record_run_start src env db) raws.length 0 0 e) ∨
    (∃ raws sr, adapter_fetch src env (record_run_start src env db).etl_checkpoints =
        Except.ok raws ∧
      adapter_save_raw src env (record_run_start src env db) raws =
        Except.ok sr ∧
      run_etl_for_source src env db =
        fail_run src env sr.2 raws.length 0 0 "OperationalError: connect") ∨
    (∃ raws sr, adapter_fetch src env (record_run_start src env db).etl_checkpoints =
        Except.ok raws ∧
      adapter_save_raw src env (record_run_start src env db) raws =
        Except.ok sr ∧
      run_etl_for_source src env db =
        fail_run src env sr.2 raws.length (process_records src env raws).2.1
          (process_records src env raws).2.2 "OperationalError: commit") ∨
    (∃ raws sr e, adapter_fetch src env (record_run_start src env db).etl_checkpoints =
        Except.ok raws ∧
      adapter_save_raw src env (record_run_start src env db) raws =
        Except.ok sr ∧
      checkpoint_advance src env (apply_commit src env sr.2 raws) raws.length
        (process_records src env raws).2.1 = Except.error e ∧
      run_etl_for_source src env db =
        fail_run src env (apply_commit src env sr.2 raws) raws.length
          (process_records src env raws).2.1
          (process_records src env raws).2.2 e) ∨
    (∃ raws sr dc, adapter_fetch src env (record_run_start src env db).etl_checkpoints =
        Except.ok raws ∧
      adapter_save_raw src env (record_run_start src env db) raws =
        Except.ok sr ∧
      checkpoint_advance src env (apply_commit src env sr.2 raws) raws.length
        (process_records src env raws).2.1 = Except.ok dc ∧
      run_etl_for_source src env db =
        finish_run env dc.1 "success" Option.none raws.length
          (process_records src env raws).2.1
          (process_records src env raws).2.2 (some dc.2)) := by
  cases hf : adapter_fetch src env (record_run_start src env db).etl_checkpoints with
  | error e =>
      refine Or.inl ⟨e, rfl, ?_⟩
      unfold run_etl_for_source
      rw [hf]
  | ok raws =>
      cases raws with
      | nil =>
          refine Or.inr (Or.inl ⟨rfl, ?_⟩)
          unfold run_etl_for_source
          rw [hf]
          rfl
      | cons a l =>
          cases hs : adapter_save_raw src env (record_run_start src env db)
              (a :: l) with
          | error e =>
              refine Or.inr (Or.inr (Or.inl ⟨a :: l, e, rfl, hs, ?_⟩))
              unfold run_etl_for_source
              simp only [hf, hs, List.isEmpty_cons, Bool.false_eq_true,
                if_false]
          | ok sr =>
              cases hl : env.loopConnOk with
              | false =>
                  refine Or.inr (Or.inr (Or.inr (Or.inl
                    ⟨a :: l, sr, rfl, hs, ?_⟩)))
                  unfold run_etl_for_source
                  simp only [hf, hs, hl, List.isEmpty_cons,
                    Bool.false_eq_true, if_false, Bool.not_false, if_true]
              | true =>
                  cases hcm : env.commitOk with
                  | false =>
                      refine Or.inr (Or.inr (Or.inr (Or.inr (Or.inl
                        ⟨a :: l, sr, rfl, hs, ?_⟩))))
                      unfold run_etl_for_source
                      simp only [hf, hs, hl, hcm, List.isEmpty_cons,
                        Bool.false_eq_true, if_false, Bool.not_false,
                        Bool.not_true, if_true]
                  | true =>
                      cases hc : checkpoint_advance src env
                          (apply_commit src env sr.2 (a :: l)) (a :: l).length
                          (process_records src env (a :: l)).2.1 with
                      | error e =>
                          refine Or.inr (Or.inr (Or.inr (Or.inr (Or.inr
                            (Or.inl ⟨a :: l, sr, e, rfl, hs, hc, ?_⟩)))))
                          unfold run_etl_for_source
                          simp only [hf, hs, hl, hcm, hc, List.isEmpty_cons,
                            Bool.false_eq_true, if_false, Bool.not_false,
                            Bool.not_true, if_true]
                      | ok dc =>
                          refine Or.inr (Or.inr (Or.inr (Or.inr (Or.inr
                            (Or.inr ⟨a :: l, sr, dc, rfl, hs, hc, ?_⟩)))))
                          unfold run_etl_for_source
                          simp only [hf, hs, hl, hcm, hc, List.isEmpty_cons,
                            Bool.false_eq_true, if_false, Bool.not_false,
                            Bool.not_true, if_true]

/-- C6: for every run, each fetched record feeds at most one of the two
counters, so `records_processed + records_failed ≤ records_fetched`; and
a run whose fetch raises reports `0` for all three. -/
theorem c6_counter_invariant (src : SourceKind) (env : EtlEnv) (db : DBState) :
    ((run_etl_for_source src env db).records_processed +
      (run_etl_for_source src env db).records_failed ≤
      (run_etl_for_source src env db).records_fetched) ∧
    (∀ e, adapter_fetch src env (record_run_start src env db).etl_checkpoints =
        Except.error e →
      (run_etl_for_source src env db).records_fetched = 0 ∧
      (run_etl_for_source src env db).records_processed = 0 ∧
      (run_etl_for_source src env db).records_failed = 0) := by
  rcases run_etl_cases src env db with
    ⟨e, hf, hrun⟩ | ⟨hf, hrun⟩ | ⟨raws, e, hf, hs, hrun⟩ |
    ⟨raws, sr, hf, hs, hrun⟩ | ⟨raws, sr, hf, hs, hrun⟩ |
    ⟨raws, sr, e, hf, hs, hc, hrun⟩ | ⟨raws, sr, dc, hf, hs, hc, hrun⟩
  · obtain ⟨_, h2, h3, h4, _, _, _, _, _, _⟩ :=
      fail_run_fields src env (record_run_start src env db) 0 0 0 e
    rw [hrun]
    exact ⟨by rw [h2, h3, h4], fun e' _ => ⟨h2, h3, h4⟩⟩
  · obtain ⟨_, h2, h3, h4, _, _, _, _, _⟩ :=
      finish_run_fields env (record_run_start src env db) "success"
        Option.none 0 0 0 Option.none
    rw [hrun]
    refine ⟨by rw [h2, h3, h4], fun e' he' => ?_⟩
    rw [hf] at he'
    exact Except.noConfusion he'
  · obtain ⟨_, h2, h3, h4, _, _, _, _, _, _⟩ :=
      fail_run_fields src env (record_run_start src env db) raws.length 0 0 e
    rw [hrun]
    refine ⟨by rw [h2, h3, h4]; exact Nat.zero_le _, fun e' he' => ?_⟩
    rw [hf] at he'
    exact Except.noConfusion he'
  · obtain ⟨_, h2, h3, h4, _, _, _, _, _, _⟩ :=
      fail_run_fields src env sr.2 raws.length 0 0 "OperationalError: connect"
    rw [hrun]
    refine ⟨by rw [h2, h3, h4]; exact Nat.zero_le _, fun e' he' => ?_⟩
    rw [hf] at he'
    exact Except.noConfusion he'
  · obtain ⟨_, h2, h3, h4, _, _, _, _, _, _⟩ :=
      fail_run_fields src env sr.2 raws.length
        (process_records src env raws).2.1
        (process_records src env raws).2.2 "OperationalError: commit"
    rw [hrun]
    refine ⟨by rw [h2, h3, h4]; exact Nat.le_of_eq (process_records_counts src env raws),
      fun e' he' => ?_⟩
    rw [hf] at he'
    exact Except.noConfusion he'
  · obtain ⟨_, h2, h3, h4, _, _, _, _, _, _⟩ :=
      fail_run_fields src env (apply_commit src env sr.2 raws) raws.length
        (process_records src env raws).2.1
        (process_records src env raws).2.2 e
    rw [hrun]
    refine ⟨by rw [h2, h3, h4]; exact Nat.le_of_eq (process_records_counts src env raws),
      fun e' he' => ?_⟩
    rw [hf] at he'
    exact Except.noConfusion he'
  · obtain ⟨_, h2, h3, h4, _, _, _, _, _⟩ :=
      finish_run_fields env dc.1 "success" Option.none raws.length
        (process_records src env raws).2.1
        (process_records src env raws).2.2 (some dc.2)
    rw [hrun]
    refine ⟨by rw [h2, h3, h4]; exact Nat.le_of_eq (process_records_counts src env raws),
      fun e' he' => ?_⟩
    rw [hf] at he'
    exact Except.noConfusion he'

/-- C1: the orchestrator never calls
`EntityResolutionService.resolve_entity`; `normalized.get("master_coin_id")`
is always `None` because `NormalizedCryptoData.model_dump()` has no such
key, so every normalized row the pipeline writes or updates has a null
`master_coin_id` (no `coin_source_mappings` row is ever created). -/
theorem c1_ingestion_never_resolves_master (src : SourceKind) (env : EtlEnv)
    (db : DBState)
    (hdb : ∀ r ∈ db.normalized_crypto_data, r.master_coin_id = Option.none) :
    ∀ r ∈ (run_etl_for_source src env db).db.normalized_crypto_data,
      r.master_coin_id = Option.none := by
  have hdb1 : ∀ r ∈ (record_run_start src env db).normalized_crypto_data,
      r.master_coin_id = Option.none := by
    rw [record_run_start_normalized]
    exact hdb
  rcases run_etl_cases src env db with
    ⟨e, hf, hrun⟩ | ⟨hf, hrun⟩ | ⟨raws, e, hf, hs, hrun⟩ |
    ⟨raws, sr, hf, hs, hrun⟩ | ⟨raws, sr, hf, hs, hrun⟩ |
    ⟨raws, sr, e, hf, hs, hc, hrun⟩ | ⟨raws, sr, dc, hf, hs, hc, hrun⟩
  · obtain ⟨_, _, _, _, _, h6, _, _, _, _⟩ :=
      fail_run_fields src env (record_run_start src env db) 0 0 0 e
    rw [hrun, h6]
    exact hdb1
  · obtain ⟨_, _, _, _, _, _, _, _, h9⟩ :=
      finish_run_fields env (record_run_start src env db) "success"
        Option.none 0 0 0 Option.none
    rw [hrun, h9]
    exact hdb1
  · obtain ⟨_, _, _, _, _, h6, _, _, _, _⟩ :=
      fail_run_fields src env (record_run_start src env db) raws.length 0 0 e
    rw [hrun, h6]
    exact hdb1
  · obtain ⟨_, _, _, _, _, h6, _, _, _, _⟩ :=
      fail_run_fields src env sr.2 raws.length 0 0 "OperationalError: connect"
    obtain ⟨_, hsn, _⟩ := adapter_save_raw_frame hs
    rw [hrun, h6, hsn]
    exact hdb1
  · obtain ⟨_, _, _, _, _, h6, _, _, _, _⟩ :=
      fail_run_fields src env sr.2 raws.length
        (process_records src env raws).2.1
        (process_records src env raws).2.2 "OperationalError: commit"
    obtain ⟨_, hsn, _⟩ := adapter_save_raw_frame hs
    rw [hrun, h6, hsn]
    exact hdb1
  · obtain ⟨_, _, _, _, _, h6, _, _, _, _⟩ :=
      fail_run_fields src env (apply_commit src env sr.2 raws) raws.length
        (process_records src env raws).2.1
        (process_records src env raws).2.2 e
    obtain ⟨_, hsn, _⟩ := adapter_save_raw_frame hs
    rw [hrun, h6]
    refine foldl_upsert_master_none _ _ ?_ (process_records_master src env raws)
    rw [hsn, record_run_start_normalized]
    exact hdb
  · obtain ⟨_, _, _, _, _, _, _, _, h9⟩ :=
      finish_run_fields env dc.1 "success" Option.none raws.length
        (process_records src env raws).2.1
        (process_records src env raws).2.2 (some dc.2)
    obtain ⟨_, hsn, _⟩ := adapter_save_raw_frame hs
    obtain ⟨_, hcn⟩ := checkpoint_advance_ok hc
    rw [hrun, h9, hcn]
    refine foldl_upsert_master_none _ _ ?_ (process_records_master src env raws)
    rw [hsn, record_run_start_normalized]
    exact hdb

/-- C3: a failed run never touches `checkpoint_value`, `last_success_at`
or `metadata` of any checkpoint row (the `""` passed as value on the
failure path is never stored); when the failure mark succeeds and a row
exists for the source, it records the failure time and the caught
message. -/
theorem c3_failed_run_preserves_checkpoint (src : SourceKind) (env : EtlEnv)
    (db : DBState)
    (hst : (run_etl_for_source src env db).status = "failed") :
    (∀ s, (storeLookup (run_etl_for_source src env db).db.etl_checkpoints s).map
        (fun r => r.checkpoint_value) =
      (storeLookup db.etl_checkpoints s).map (fun r => r.checkpoint_value)) ∧
    (∀ s, (storeLookup (run_etl_for_source src env db).db.etl_checkpoints s).map
        (fun r => r.last_success_at) =
      (storeLookup db.etl_checkpoints s).map (fun r => r.last_success_at)) ∧
    (∀ s, (storeLookup (run_etl_for_source src env db).db.etl_checkpoints s).map
        (fun r => r.metadata) =
      (storeLookup db.etl_checkpoints s).map (fun r => r.metadata)) ∧
    (env.ckFailWriteOk = true →
      ∀ r, storeLookup db.etl_checkpoints (source_name src) = some r →
        ∃ msg, (run_etl_for_source src env db).error_message = some msg ∧
          storeLookup (run_etl_for_source src env db).db.etl_checkpoints
              (source_name src) =
            some { r with
                     last_failure_at := some env.ckFailNow,
                     failure_reason := some msg,
                     updated_at := some env.ckFailNow }) := by
  rcases run_etl_cases src env db with
    ⟨e, hf, hrun⟩ | ⟨hf, hrun⟩ | ⟨raws, e, hf, hs, hrun⟩ |
    ⟨raws, sr, hf, hs, hrun⟩ | ⟨raws, sr, hf, hs, hrun⟩ |
    ⟨raws, sr, e, hf, hs, hc, hrun⟩ | ⟨raws, sr, dc, hf, hs, hc, hrun⟩
  · have hX : (record_run_start src env db).etl_checkpoints =
        db.etl_checkpoints := record_run_start_checkpoints src env db
    obtain ⟨_, _, _, _, h5, _, h7, h8, h9, h10⟩ :=
      fail_run_fields src env (record_run_start src env db) 0 0 0 e
    refine ⟨fun s => by rw [hrun, h7 s, hX], fun s => by rw [hrun, h8 s, hX],
      fun s => by rw [hrun, h9 s, hX], ?_⟩
    intro hok r hr
    obtain ⟨_, hupd⟩ := h10 hok
    refine ⟨e, by rw [hrun, h5], ?_⟩
    rw [hrun]
    exact hupd r (by rw [hX]; exact hr)
  · obtain ⟨h1, _, _, _, _, _, _, _, _⟩ :=
      finish_run_fields env (record_run_start src env db) "success"
        Option.none 0 0 0 Option.none
    rw [hrun, h1] at hst
    exact absurd hst (by decide)
  · have hX : (record_run_start src env db).etl_checkpoints =
        db.etl_checkpoints := record_run_start_checkpoints src env db
    obtain ⟨_, _, _, _, h5, _, h7, h8, h9, h10⟩ :=
      fail_run_fields src env (record_run_start src env db) raws.length 0 0 e
    refine ⟨fun s => by rw [hrun, h7 s, hX], fun s => by rw [hrun, h8 s, hX],
      fun s => by rw [hrun, h9 s, hX], ?_⟩
    intro hok r hr
    obtain ⟨_, hupd⟩ := h10 hok
    refine ⟨e, by rw [hrun, h5], ?_⟩
    rw [hrun]
    exact hupd r (by rw [hX]; exact hr)
  · have hX : sr.2.etl_checkpoints = db.etl_checkpoints :=
      (adapter_save_raw_frame hs).1.trans
        (record_run_start_checkpoints src env db)
    obtain ⟨_, _, _, _, h5, _, h7, h8, h9, h10⟩ :=
      fail_run_fields src env sr.2 raws.length 0 0 "OperationalError: connect"
    refine ⟨fun s => by rw [hrun, h7 s, hX], fun s => by rw [hrun, h8 s, hX],
      fun s => by rw [hrun, h9 s, hX], ?_⟩
    intro hok r hr
    obtain ⟨_, hupd⟩ := h10 hok
    refine ⟨"OperationalError: connect", by rw [hrun, h5], ?_⟩
    rw [hrun]
    exact hupd r (by rw [hX]; exact hr)
  · have hX : sr.2.etl_checkpoints = db.etl_checkpoints :=
      (adapter_save_raw_frame hs).1.trans
        (record_run_start_checkpoints src env db)
    obtain ⟨_, _, _, _, h5, _, h7, h8, h9, h10⟩ :=
      fail_run_fields src env sr.2 raws.length
        (process_records src env raws).2.1
        (process_records src env raws).2.2 "OperationalError: commit"
    refine ⟨fun s => by rw [hrun, h7 s, hX], fun s => by rw [hrun, h8 s, hX],
      fun s => by rw [hrun, h9 s, hX], ?_⟩
    intro hok r hr
    obtain ⟨_, hupd⟩ := h10 hok
    refine ⟨"OperationalError: commit", by rw [hrun, h5], ?_⟩
    rw [hrun]
    exact hupd r (by rw [hX]; exact hr)
  · have hX : (apply_commit src env sr.2 raws).etl_checkpoints =
        db.etl_checkpoints := by
      rw [show (apply_commit src env sr.2 raws).etl_checkpoints =
        sr.2.etl_checkpoints from rfl, (adapter_save_raw_frame hs).1,
        record_run_start_checkpoints]
    obtain ⟨_, _, _, _, h5, _, h7, h8, h9, h10⟩ :=
      fail_run_fields src env (apply_commit src env sr.2 raws) raws.length
        (process_records src env raws).2.1
        (process_records src env raws).2.2 e
    refine ⟨fun s => by rw [hrun, h7 s, hX], fun s => by rw [hrun, h8 s, hX],
      fun s => by rw [hrun, h9 s, hX], ?_⟩
    intro hok r hr
    obtain ⟨_, hupd⟩ := h10 hok
    refine ⟨e, by rw [hrun, h5], ?_⟩
    rw [hrun]
    exact hupd r (by rw [hX]; exact hr)
  · obtain ⟨h1, _, _, _, _, _, _, _, _⟩ :=
      finish_run_fields env dc.1 "success" Option.none raws.length
        (process_records src env raws).2.1
        (process_records src env raws).2.2 (some dc.2)
    rw [hrun, h1] at hst
    exact absurd hst (by decide)

/-- C2 (amended): on a successful run that fetched records, the value
passed to the success mark is the ISO timestamp of the *checkpoint
advance* (a fresh `utcnow()`, not the run's `started_at`) for the two
HTTP sources, and `str(prior_last_row + fetched_count)` for csv — where
`prior_last_row` is necessarily 0, since an existing checkpoint row makes
`get_last_row_number` raise and the run fail. -/
theorem c2_success_checkpoint_value (src : SourceKind) (env : EtlEnv)
    (db : DBState)
    (hst : (run_etl_for_source src env db).status = "success")
    (hne : (run_etl_for_source src env db).records_fetched ≠ 0) :
    (run_etl_for_source src env db).ckValueWritten =
      some (if src = SourceKind.csv
        then toString (run_etl_for_source src env db).records_fetched
        else isoformat env.checkpointNow) := by
  rcases run_etl_cases src env db with
    ⟨e, hf, hrun⟩ | ⟨hf, hrun⟩ | ⟨raws, e, hf, hs, hrun⟩ |
    ⟨raws, sr, hf, hs, hrun⟩ | ⟨raws, sr, hf, hs, hrun⟩ |
    ⟨raws, sr, e, hf, hs, hc, hrun⟩ | ⟨raws, sr, dc, hf, hs, hc, hrun⟩
  · obtain ⟨h1, _, _, _, _, _, _, _, _, _⟩ :=
      fail_run_fields src env (record_run_start src env db) 0 0 0 e
    rw [hrun, h1] at hst
    exact absurd hst (by decide)
  · obtain ⟨_, h2, _, _, _, _, _, _, _⟩ :=
      finish_run_fields env (record_run_start src env db) "success"
        Option.none 0 0 0 Option.none
    rw [hrun, h2] at hne
    exact absurd rfl hne
  · obtain ⟨h1, _, _, _, _, _, _, _, _, _⟩ :=
      fail_run_fields src env (record_run_start src env db) raws.length 0 0 e
    rw [hrun, h1] at hst
    exact absurd hst (by decide)
  · obtain ⟨h1, _, _, _, _, _, _, _, _, _⟩ :=
      fail_run_fields src env sr.2 raws.length 0 0 "OperationalError: connect"
    rw [hrun, h1] at hst
    exact absurd hst (by decide)
  · obtain ⟨h1, _, _, _, _, _, _, _, _, _⟩ :=
      fail_run_fields src env sr.2 raws.length
        (process_records src env raws).2.1
        (process_records src env raws).2.2 "OperationalError: commit"
    rw [hrun, h1] at hst
    exact absurd hst (by decide)
  · obtain ⟨h1, _, _, _, _, _, _, _, _, _⟩ :=
      fail_run_fields src env (apply_commit src env sr.2 raws) raws.length
        (process_records src env raws).2.1
        (process_records src env raws).2.2 e
    rw [hrun, h1] at hst
    exact absurd hst (by decide)
  · obtain ⟨_, h2, _, _, _, _, h7, _, _⟩ :=
      finish_run_fields env dc.1 "success" Option.none raws.length
        (process_records src env raws).2.1
        (process_records src env raws).2.2 (some dc.2)
    obtain ⟨hval, _⟩ := checkpoint_advance_ok hc
    rw [hrun, h7, h2, hval, Nat.zero_add]

/-! ### Concrete runs -/

/-- A provider payload of one well-formed BTC item. -/
def btcItem : PyVal :=
  .dict [("id", .str "btc-bitcoin"), ("symbol", .str "BTC"),
         ("name", .str "Bitcoin")]

/-- A fully healthy run: every effect succeeds; the clock readings are
distinct ticks (`started_at = 0`, checkpoint advance at tick 5). -/
def envHealthy : EtlEnv :=
  { runId := 1, startedAt := 0, insertRunOk := true,
    providerData := .ok [btcItem],
    csvFileExists := false, csvFileRows := [],
    saveRawTime := 2, saveRawOk := true, loopConnOk := true,
    normTime := fun _ => 3, upsertFails := fun _ => false, commitOk := true,
    checkpointNow := 5, ckNow := 6, ckWriteOk := true,
    ckFailNow := 7, ckFailWriteOk := true, completedAt := 8,
    updateRunOk := true }

def emptyDB : DBState :=
  { etl_runs := [], etl_checkpoints := [], normalized_crypto_data := [],
    raw_coinpaprika := [], raw_coingecko := [], raw_csv := [] }

/-- Same run, but the success-side checkpoint write raises. -/
def envCkWriteFails : EtlEnv := { envHealthy with ckWriteOk := false }

/-- The provider is down and the failure mark raises too. -/
def envFetchAndMarkFail : EtlEnv :=
  { envHealthy with
      providerData := .error "HTTPError: 500",
      ckFailWriteOk := false }

/-- The provider is down; the failure mark succeeds. -/
def envFetchFails : EtlEnv :=
  { envHealthy with providerData := .error "HTTPError: 500" }

/-- A pre-existing coinpaprika checkpoint row. -/
def ckRowX : CheckpointRow :=
  { checkpoint_value := some "2026-01-01T00:00:00", last_success_at := some 1,
    last_failure_at := Option.none, failure_reason := Option.none,
    metadata := Option.none, updated_at := some 1 }

def dbWithPaprikaRow : DBState :=
  { emptyDB with etl_checkpoints := [("coinpaprika", ckRowX)] }

/-- C2 counterexample: a successful coinpaprika run started at tick 0
passes `isoformat` of tick 5 — the checkpoint-advance time, not the
run's `started_at` — to the success mark. -/
theorem c2_counterexample :
    (run_etl_for_source .coinpaprika envHealthy emptyDB).status = "success" ∧
    (run_etl_for_source .coinpaprika envHealthy emptyDB).ckValueWritten =
      some (isoformat 5) ∧
    isoformat 5 ≠ isoformat envHealthy.startedAt :=
  ⟨rfl, rfl, by decide⟩

/-- C2 witness: instantiating the amended claim on the healthy run. -/
theorem c2_witness :
    (run_etl_for_source .coinpaprika envHealthy emptyDB).ckValueWritten =
      some (isoformat envHealthy.checkpointNow) := by
  have h := c2_success_checkpoint_value .coinpaprika envHealthy emptyDB rfl
    (by decide)
  exact h

/-- C4: checkpoint-write failures poison the run outcome, because
`update_checkpoint` re-raises after logging. A run whose ingestion fully
succeeded but whose success mark raised is recorded as `failed` carrying
the checkpoint error as the run's error message; and when the failure
mark raises, the exception escapes `run_etl_for_source` and the final
run row is never written — the row stays `running` with no
`completed_at`. -/
theorem c4_checkpoint_failure_poisons_outcome :
    ((run_etl_for_source .coinpaprika envCkWriteFails emptyDB).status =
        "failed" ∧
     (run_etl_for_source .coinpaprika envCkWriteFails emptyDB).records_processed = 1 ∧
     (run_etl_for_source .coinpaprika envCkWriteFails emptyDB).error_message =
       some "Failed to update checkpoint" ∧
     (run_etl_for_source .coinpaprika envCkWriteFails emptyDB).db.etl_runs.map
       (fun r => r.status) = ["failed"]) ∧
    ((run_etl_for_source .coingecko envFetchAndMarkFail emptyDB).escaped =
       some "Failed to update checkpoint" ∧
     (run_etl_for_source .coingecko envFetchAndMarkFail emptyDB).db.etl_runs.map
       (fun r => (r.status, r.completed_at)) = [("running", Option.none)]) :=
  ⟨⟨rfl, rfl, rfl, rfl⟩, ⟨rfl, rfl⟩⟩

/-- C3 witness: a failed run on a store holding a coinpaprika row leaves
that row's `checkpoint_value` untouched. -/
theorem c3_witness :
    (storeLookup (run_etl_for_source .coinpaprika envFetchFails
        dbWithPaprikaRow).db.etl_checkpoints "coinpaprika").map
      (fun r => r.checkpoint_value) =
      some (some "2026-01-01T00:00:00") := by
  have h := (c3_failed_run_preserves_checkpoint .coinpaprika envFetchFails
    dbWithPaprikaRow rfl).1 "coinpaprika"
  rw [h]
  rfl

/-- C1 witness: after the healthy run ingests one record into an empty
store, every normalized row has a null `master_coin_id`. -/
theorem c1_witness :
    ((run_etl_for_source .coinpaprika envHealthy
        emptyDB).db.normalized_crypto_data.all
      (fun r => r.master_coin_id == Option.none)) = true := by
  have h := c1_ingestion_never_resolves_master .coinpaprika envHealthy emptyDB
    (fun r hr => absurd hr (List.not_mem_nil r))
  exact rfl

/-- C6 witness: a run whose fetch raises reports zero for all three
counters. -/
theorem c6_witness :
    (run_etl_for_source .coingecko envFetchFails emptyDB).records_fetched = 0 ∧
    (run_etl_for_source .coingecko envFetchFails emptyDB).records_processed = 0 ∧
    (run_etl_for_source .coingecko envFetchFails emptyDB).records_failed = 0 :=
  (c6_counter_invariant .coingecko envFetchFails emptyDB).2 "HTTPError: 500" rfl

end Kasparro
